import Mathlib

/-!
# Verification of the kart-racer core simulation

Shallow embedding, over `ℚ`, of the kart movement model (`physics.js`,
`KartPhysics.update`), the kart-kart collision resolver
(`kart-collision.js`), the race progression state machine (`race.js`),
the server hazard subsystems (`server-items.js`, `server-boost-pads.js`),
the room tick / input handling (`server/room.js`), the room registry
(`server/lobby.js`) and the client reconciliation step
(`net/prediction.js`).

JavaScript numbers are embedded as exact rationals.  The transcendental
library functions the source calls (`Math.sin`, `Math.cos`, `Math.sqrt`)
have no exact rational counterpart, so each embedded routine takes them
as explicit function parameters (`Trig`, `sqrtFn`); every theorem either
holds for all instantiations of these parameters or evaluates them only
at points where the mathematical function is exactly rational (angle `0`,
perfect squares), so each concrete run below agrees exactly with the
JavaScript source at the evaluated inputs.
-/

namespace KartSim

/-- A 3-component vector of rationals, mirroring a THREE.Vector3. -/
structure Vec3 where
  x : ℚ
  y : ℚ
  z : ℚ
deriving DecidableEq, Repr

/-- JavaScript `Math.sign`: `1`, `-1` or `0`. -/
def jsSign (q : ℚ) : ℚ :=
  if 0 < q then 1 else if q < 0 then -1 else 0

/-- `THREE.MathUtils.clamp(value, min, max) = Math.max(min, Math.min(max, value))`. -/
def clampQ (v lo hi : ℚ) : ℚ := max lo (min hi v)

/-- Abstract interface for `Math.sin` / `Math.cos`.  The embedded code is
parametric in it; concrete runs only evaluate it at angle `0`, where
`sin 0 = 0` and `cos 0 = 1` exactly. -/
structure Trig where
  sin : ℚ → ℚ
  cos : ℚ → ℚ

/-- One hop button: the source's `'z'` / `'x'` strings. -/
inductive HopButton where
  | z
  | x
deriving DecidableEq, Repr

/-- Per-tick input command (`input` object consumed by `KartPhysics.update`). -/
structure Input where
  accel : ℚ
  steer : ℚ
  hopZ : Bool
  hopX : Bool
  hopZTap : Bool
  hopXTap : Bool
  itemUseTap : Bool
deriving DecidableEq, Repr

/-- Kart stats (`KART_DEFAULTS` in `physics.js`); the three-element arrays
`boostSpeeds` / `boostDurations` are embedded as triples. -/
structure Stats where
  maxSpeed : ℚ
  accel : ℚ
  brakeForce : ℚ
  friction : ℚ
  turnRate : ℚ
  slideTurnMult : ℚ
  slideFrictionMult : ℚ
  slideSlide : ℚ
  hopForce : ℚ
  slideMeterDuration : ℚ
  boostSpeeds : ℚ × ℚ × ℚ
  boostDurations : ℚ × ℚ × ℚ
  radius : ℚ
deriving DecidableEq, Repr

/-- The default stats object from `physics.js`. -/
def KART_DEFAULTS : Stats where
  maxSpeed := 35
  accel := 18
  brakeForce := 25
  friction := 8
  turnRate := 13/20
  slideTurnMult := 7/5
  slideFrictionMult := 2/5
  slideSlide := 3/10
  hopForce := 4
  slideMeterDuration := 3/2
  boostSpeeds := (10, 15, 20)
  boostDurations := (1/2, 4/5, 6/5)
  radius := 1

/-- Index a stat triple by charge level 0/1/2 (`s.boostSpeeds[ud.slideBoosts]`);
the source only ever indexes with `0 ≤ slideBoosts < 3`. -/
def idx3 (t : ℚ × ℚ × ℚ) (i : ℤ) : ℚ :=
  if i = 0 then t.1 else if i = 1 then t.2.1 else t.2.2

/-- Mutable per-kart state (`kart.position`, `kart.rotation.y`, `kart.userData`). -/
structure Kart where
  pos : Vec3
  rotY : ℚ
  vel : Vec3
  speed : ℚ
  steerAngle : ℚ
  grounded : Bool
  slideActive : Bool
  slideButton : Option HopButton
  slideDir : ℚ
  slideAngle : ℚ
  slideTimer : ℚ
  slideBoosts : ℤ
  boostTimer : ℚ
  boostSpeed : ℚ
  spawnPoint : Vec3
deriving DecidableEq, Repr

/-- Axis-aligned box obstacle. -/
structure Obstacle where
  position : Vec3
  halfExtents : Vec3
deriving DecidableEq, Repr

/-- Track sampling interface (`trackData.getGroundHeight` &c.); terrain
type is `0` track, `1` offroad, `2` inaccessible. -/
structure Track where
  getGroundHeight : ℚ → ℚ → ℚ
  getGroundNormal : ℚ → ℚ → Vec3
  getTerrainType : ℚ → ℚ → ℤ

/-- Environment of one `KartPhysics` instance: obstacles, track and the
library functions the source calls. -/
structure PhysicsEnv where
  obstacles : List Obstacle
  track : Track
  trig : Trig
  sqrtFn : ℚ → ℚ

/-- World constants from `physics.js`. -/
def GRAVITY : ℚ := -25

def GROUND_SNAP : ℚ := 2/5

def SLOPE_SPEED_FACTOR : ℚ := 30

def MAX_DRIVEABLE_SLOPE : ℚ := 11/20

/-- `SWEET_SPOTS[level]` — `[start, end]` fractions of the slide meter. -/
def SWEET_SPOTS (i : ℤ) : ℚ × ℚ :=
  if i = 0 then (11/20, 17/20) else if i = 1 then (3/5, 4/5) else (13/20, 4/5)

/-- `KartPhysics` instance state threaded across ticks: the kart object
plus the instance field `this.groundNormal`. -/
structure PhysState where
  kart : Kart
  groundNormal : Vec3
deriving DecidableEq, Repr

namespace KartPhysics

/-- Lines 72-79: hop initiation — tap Z or X while grounded and not sliding. -/
def hopInit (s : Stats) (input : Input) (k : Kart) : Kart :=
  if (input.hopZTap || input.hopXTap) && k.grounded && !k.slideActive then
    { k with
      vel := { k.vel with y := s.hopForce }
      pos := { k.pos with y := k.pos.y + GROUND_SNAP + 1/10 }
      grounded := false
      slideButton := some (if input.hopZTap then .z else .x)
      slideTimer := 0
      slideBoosts := 0 }
  else k

/-- `(ud.slideButton === 'z' && input.hopZ) || (ud.slideButton === 'x' && input.hopX)`. -/
def slideHeld (input : Input) (k : Kart) : Bool :=
  match k.slideButton with
  | some .z => input.hopZ
  | some .x => input.hopX
  | none => false

/-- Lines 82-93: slide entry — just landed while hop held and steering. -/
def slideEntry (input : Input) (k : Kart) : Kart :=
  if k.grounded && !k.slideActive && k.slideButton.isSome then
    if slideHeld input k && decide (|input.steer| > 1/10) then
      { k with slideActive := true, slideDir := jsSign input.steer, slideTimer := 0 }
    else if !slideHeld input k then
      { k with slideButton := none }
    else k
  else k

/-- Lines 96-105: slide end — released the hop button that started the slide. -/
def slideEnd (input : Input) (k : Kart) : Kart :=
  if k.slideActive && !slideHeld input k then
    { k with slideActive := false, slideButton := none, slideTimer := 0, slideBoosts := 0 }
  else k

/-- Lines 108-131: during an active slide, accrue the meter and handle the
boost-trigger tap of the *other* hop button; `triggerTap` is computed from
the slide button as read at the top of `update` (line 66). -/
def slideCharge (s : Stats) (triggerTap : Bool) (dt : ℚ) (k : Kart) : Kart :=
  if k.slideActive && decide (0 ≤ k.slideBoosts) && decide (k.slideBoosts < 3) then
    let k1 := { k with slideTimer := k.slideTimer + dt }
    let meterFill := k1.slideTimer / s.slideMeterDuration
    let k2 :=
      if triggerTap then
        let win := SWEET_SPOTS k.slideBoosts
        if win.1 ≤ meterFill ∧ meterFill ≤ win.2 then
          { k1 with
            boostTimer := idx3 s.boostDurations k.slideBoosts
            boostSpeed := idx3 s.boostSpeeds k.slideBoosts
            slideBoosts := k.slideBoosts + 1
            slideTimer := 0 }
        else { k1 with slideBoosts := -1 }
      else k1
    if meterFill > 1 then { k2 with slideBoosts := -1 } else k2
  else k

/-- Lines 134-140: boost holds full power while the timer runs, then decays. -/
def boostDecay (dt : ℚ) (k : Kart) : Kart :=
  if k.boostTimer > 0 then
    { k with boostTimer := max 0 (k.boostTimer - dt) }
  else if k.boostSpeed > 0 then
    { k with boostSpeed := max 0 (k.boostSpeed - 15 * dt) }
  else k

/-- Lines 143-160: steering (air, slide and normal ground cases). -/
def steering (s : Stats) (input : Input) (dt : ℚ) (k : Kart) : Kart :=
  let k := { k with steerAngle := input.steer }
  if !k.grounded then
    { k with rotY := k.rotY + input.steer * s.turnRate * (3/2) * dt }
  else if |k.speed| > 1/2 then
    if k.slideActive then
      let intoSlide := jsSign input.steer = k.slideDir
      let steerMult := if intoSlide then s.slideTurnMult else s.slideTurnMult * (1/2)
      let speedFactor := min 1 ((|k.speed| / s.maxSpeed) * 3)
      { k with rotY := k.rotY + input.steer * s.turnRate * steerMult * speedFactor * dt }
    else
      let speedFactor := min 1 ((|k.speed| / s.maxSpeed) * 3)
      let reverseFlip : ℚ := if k.speed < 0 then -1 else 1
      { k with rotY := k.rotY + input.steer * s.turnRate * speedFactor * reverseFlip * dt }
  else k

/-- Lines 163-168: smooth the visual slide-angle offset toward its target. -/
def slideAngleStep (dt : ℚ) (k : Kart) : Kart :=
  let targetOffset := if k.slideActive then k.slideDir * (1/2) else 0
  let sa := k.slideAngle + (targetOffset - k.slideAngle) * min 1 (8 * dt)
  { k with slideAngle := if |sa| < 1/100 then 0 else sa }

/-- Lines 170-177: travel direction, excluding the visual slide offset. -/
def forwardOf (T : Trig) (k : Kart) : Vec3 :=
  let travelAngle := k.rotY - k.slideAngle
  ⟨-(T.sin travelAngle), 0, -(T.cos travelAngle)⟩

/-- Lines 180-185: slope effect on speed (uses the instance ground normal). -/
def slopeStep (gn : Vec3) (fwd : Vec3) (dt : ℚ) (k : Kart) : Kart :=
  if k.grounded then
    let slopeDot := gn.x * fwd.x + gn.z * fwd.z
    let steepness := 1 - gn.y
    { k with speed := k.speed - slopeDot * steepness * SLOPE_SPEED_FACTOR * dt }
  else k

/-- Lines 188-191: the tick's terrain sample (`0` when airborne) and the
offroad flag derived from it. -/
def tickOffroad (env : PhysicsEnv) (k : Kart) : Bool :=
  let terrain := if k.grounded then env.track.getTerrainType k.pos.x k.pos.z else 0
  terrain = 1

/-- Lines 194-210: acceleration / braking, friction and offroad drag. -/
def accelStep (s : Stats) (offroad : Bool) (input : Input) (dt : ℚ) (k : Kart) : Kart :=
  let offroadAccelMult : ℚ := if offroad then 1/2 else 1
  let sp0 :=
    if input.accel > 0 then k.speed + s.accel * offroadAccelMult * dt
    else if input.accel < 0 then k.speed - s.brakeForce * dt
    else k.speed
  let frictionMult := if k.slideActive then s.slideFrictionMult else 1
  let sp1 :=
    if |input.accel| < 1/10 then
      let sp := sp0 - jsSign sp0 * s.friction * frictionMult * dt
      if |sp| < 3/10 then 0 else sp
    else sp0
  let sp2 :=
    if offroad ∧ |sp1| > 1/10 then sp1 - jsSign sp1 * 3 * dt else sp1
  { k with speed := sp2 }

/-- Lines 212-220: clamp speed to `[-0.4 maxSpd, maxSpd + boost]`, then the
boost speed floor. -/
def clampStep (s : Stats) (offroad : Bool) (k : Kart) : Kart :=
  let maxSpd := s.maxSpeed * (if offroad then 3/5 else 1)
  let effectiveMax := maxSpd + k.boostSpeed
  let sp := clampQ k.speed (-maxSpd * (2/5)) effectiveMax
  let sp := if k.boostSpeed > 0 then max sp (maxSpd + k.boostSpeed * (4/5)) else sp
  { k with speed := sp }

/-- Lines 222-245: lateral slide, velocity composition and gravity. -/
def composeVelocity (s : Stats) (fwd : Vec3) (input : Input) (dt : ℚ) (k : Kart) : Kart :=
  let right : Vec3 := ⟨fwd.z, 0, -fwd.x⟩
  let lateralSlide :=
    if k.slideActive ∧ |k.speed| > 3 then -input.steer * k.speed * s.slideSlide else 0
  let prevYVel := k.vel.y
  let v :=
    if k.grounded then
      Vec3.mk (fwd.x * k.speed + right.x * lateralSlide) prevYVel
        (fwd.z * k.speed + right.z * lateralSlide)
    else k.vel
  let v :=
    if !k.grounded then { v with y := v.y + GRAVITY * dt } else { v with y := 0 }
  { k with vel := v }

/-- Lines 247-250: position integration. -/
def integrate (dt : ℚ) (k : Kart) : Kart :=
  { k with pos := ⟨k.pos.x + k.vel.x * dt, k.pos.y + k.vel.y * dt, k.pos.z + k.vel.z * dt⟩ }

/-- Lines 252-270: inaccessible-terrain hard wall, with per-axis slide. -/
def hardTerrain (env : PhysicsEnv) (prevX prevZ : ℚ) (k : Kart) : Kart :=
  if env.track.getTerrainType k.pos.x k.pos.z = 2 then
    let canSlideX := env.track.getTerrainType k.pos.x prevZ ≠ 2
    let canSlideZ := env.track.getTerrainType prevX k.pos.z ≠ 2
    let k :=
      if canSlideX ∧ ¬canSlideZ then
        { k with pos := { k.pos with z := prevZ }, vel := { k.vel with z := 0 } }
      else if canSlideZ ∧ ¬canSlideX then
        { k with pos := { k.pos with x := prevX }, vel := { k.vel with x := 0 } }
      else
        { k with pos := { k.pos with x := prevX, z := prevZ }
                 vel := { k.vel with x := 0, z := 0 } }
    { k with speed := k.speed * (7/10) }
  else k

/-- Lines 277-292: the too-steep branch of the ground check — push out
along the horizontal normal and cancel the inward velocity component. -/
def steepWall (env : PhysicsEnv) (gn : Vec3) (k : Kart) : Kart :=
  let pushLen := env.sqrtFn (gn.x * gn.x + gn.z * gn.z)
  if pushLen > 1/1000 then
    let nx := gn.x / pushLen
    let nz := gn.z / pushLen
    let k := { k with pos := { k.pos with x := k.pos.x + nx * (3/10),
                                          z := k.pos.z + nz * (3/10) } }
    let vDot := k.vel.x * nx + k.vel.z * nz
    if vDot < 0 then
      { k with vel := { k.vel with x := k.vel.x - nx * vDot,
                                   z := k.vel.z - nz * vDot }
               speed := k.speed * (3/10) }
    else k
  else k

/-- Lines 299-307: first grounded frame after airborne — reproject the
retained horizontal velocity onto the facing direction, clamped to the
pre-airborne speed magnitude. -/
def landReproject (fwd : Vec3) (wasAirborne : Bool) (k : Kart) : Kart :=
  if wasAirborne then
    let prevSpeed := k.speed
    let sp := k.vel.x * fwd.x + k.vel.z * fwd.z
    let sp := if |sp| > |prevSpeed| then jsSign sp * |prevSpeed| else sp
    { k with speed := sp }
  else k

/-- Lines 293-307: the snap-to-ground branch. -/
def landSnap (groundY : ℚ) (fwd : Vec3) (k : Kart) : Kart :=
  let wasAirborne := !k.grounded
  let k := { k with pos := { k.pos with y := groundY + 1/50 } }
  let k := if k.vel.y < 0 then { k with vel := { k.vel with y := 0 } } else k
  let k := { k with grounded := true }
  landReproject fwd wasAirborne k

/-- Lines 272-311: analytical ground check — snap / landing reprojection,
or steep-slope wall pushout; also updates the instance ground normal. -/
def groundResolve (env : PhysicsEnv) (fwd : Vec3) (st : PhysState) : PhysState :=
  let k := st.kart
  let groundY := env.track.getGroundHeight k.pos.x k.pos.z
  let gn := env.track.getGroundNormal k.pos.x k.pos.z
  if k.pos.y ≤ groundY + GROUND_SNAP then
    if gn.y < MAX_DRIVEABLE_SLOPE then
      { kart := { (steepWall env gn k) with grounded := false },
        groundNormal := st.groundNormal }
    else
      { kart := landSnap groundY fwd k, groundNormal := gn }
  else
    { kart := { k with grounded := false }, groundNormal := st.groundNormal }

/-- Lines 333-371: closest-point-on-box obstacle resolution for one box. -/
def resolveObstacle (env : PhysicsEnv) (s : Stats) (k : Kart) (obs : Obstacle) : Kart :=
  let c := obs.position
  let he := obs.halfExtents
  let closestX := clampQ k.pos.x (c.x - he.x) (c.x + he.x)
  let closestY := clampQ k.pos.y (c.y - he.y) (c.y + he.y)
  let closestZ := clampQ k.pos.z (c.z - he.z) (c.z + he.z)
  let dx := k.pos.x - closestX
  let dy := k.pos.y - closestY
  let dz := k.pos.z - closestZ
  let distSq := dx * dx + dy * dy + dz * dz
  if distSq < s.radius * s.radius ∧ distSq > 1/10000 then
    let dist := env.sqrtFn distSq
    let penetration := s.radius - dist
    let nx := dx / dist
    let ny := dy / dist
    let nz := dz / dist
    let k := { k with pos := ⟨k.pos.x + nx * penetration, k.pos.y + ny * penetration,
                              k.pos.z + nz * penetration⟩ }
    let dot := k.vel.x * nx + k.vel.y * ny + k.vel.z * nz
    if dot < 0 then
      { k with vel := ⟨k.vel.x - nx * dot * (6/5), k.vel.y - ny * dot * (6/5),
                       k.vel.z - nz * dot * (6/5)⟩
               speed := k.speed * (7/10) }
    else k
  else k

/-- `_resolveObstacleCollisions`: fold over all obstacles. -/
def resolveObstacleCollisions (env : PhysicsEnv) (s : Stats) (k : Kart) : Kart :=
  env.obstacles.foldl (resolveObstacle env s) k

/-- Lines 316-330: fall-off-the-map respawn. -/
def respawn (k : Kart) : Kart :=
  if k.pos.y < -30 then
    { k with
      pos := k.spawnPoint
      vel := ⟨0, 0, 0⟩
      speed := 0
      slideActive := false
      slideButton := none
      slideDir := 0
      slideAngle := 0
      slideTimer := 0
      slideBoosts := 0
      boostTimer := 0
      boostSpeed := 0 }
  else k

/-- `const triggerTap = ...` (line 66): the tap of the *other* hop button,
read from the slide button at the top of `update`. -/
def triggerTapOf (input : Input) (k : Kart) : Bool :=
  match k.slideButton with
  | some .z => input.hopXTap
  | some .x => input.hopZTap
  | none => false

/-- The first half of `update` (lines 62-185): slide/hop lifecycle, boost
decay, steering, slide angle and slope effect, with the travel direction
computed in between as in the source. -/
def stepsBeforeTerrain (env : PhysicsEnv) (s : Stats) (input : Input) (dt : ℚ)
    (st : PhysState) : Kart × Vec3 :=
  let k0 := st.kart
  let triggerTap := triggerTapOf input k0
  let k := hopInit s input k0
  let k := slideEntry input k
  let k := slideEnd input k
  let k := slideCharge s triggerTap dt k
  let k := boostDecay dt k
  let k := steering s input dt k
  let k := slideAngleStep dt k
  let fwd := forwardOf env.trig k
  let k := slopeStep st.groundNormal fwd dt k
  (k, fwd)

/-- The offroad flag the tick derives from its terrain sample (line 189). -/
def updateOffroad (env : PhysicsEnv) (s : Stats) (input : Input) (dt : ℚ)
    (st : PhysState) : Bool :=
  tickOffroad env (stepsBeforeTerrain env s input dt st).1

/-- `KartPhysics.update(kart, input, dt)`, over the kart stats `s`.
The steps run in the exact source order. -/
def update (env : PhysicsEnv) (s : Stats) (input : Input) (dt : ℚ)
    (st : PhysState) : PhysState :=
  let kf := stepsBeforeTerrain env s input dt st
  let fwd := kf.2
  let k := kf.1
  let offroad := tickOffroad env k
  let k := accelStep s offroad input dt k
  let k := clampStep s offroad k
  let k := composeVelocity s fwd input dt k
  let prevX := k.pos.x
  let prevZ := k.pos.z
  let k := integrate dt k
  let k := hardTerrain env prevX prevZ k
  let st1 := groundResolve env fwd { kart := k, groundNormal := st.groundNormal }
  let k := resolveObstacleCollisions env s st1.kart
  let k := respawn k
  { kart := k, groundNormal := st1.groundNormal }

end KartPhysics

/-! ## Kart-kart collision resolver (`kart-collision.js`) -/

namespace KartCollision

def KART_RADIUS : ℚ := 3/2

def BOUNCE_SLOWDOWN : ℚ := 17/20

def SEPARATION_FORCE : ℚ := 8

/-- The body of the double loop of `resolveKartCollisions` for one pair
`(a, b) = (karts[i], karts[j])`, `i < j`. -/
def collidePair (sqrtFn : ℚ → ℚ) (a b : Kart) : Kart × Kart :=
  let dx := b.pos.x - a.pos.x
  let dz := b.pos.z - a.pos.z
  let distSq := dx * dx + dz * dz
  let minDist := KART_RADIUS * 2
  if distSq < minDist * minDist ∧ distSq > 1/10000 then
    let dist := sqrtFn distSq
    let overlap := minDist - dist
    let nx := dx / dist
    let nz := dz / dist
    let push := overlap * (1/2) + 3/20
    let a := { a with pos := { a.pos with x := a.pos.x - nx * push, z := a.pos.z - nz * push } }
    let b := { b with pos := { b.pos with x := b.pos.x + nx * push, z := b.pos.z + nz * push } }
    let relVelN := (b.vel.x - a.vel.x) * nx + (b.vel.z - a.vel.z) * nz
    let ab :=
      if relVelN < 0 then
        ({ a with vel := { a.vel with x := a.vel.x + nx * relVelN * (1/2),
                                      z := a.vel.z + nz * relVelN * (1/2) } },
         { b with vel := { b.vel with x := b.vel.x - nx * relVelN * (1/2),
                                      z := b.vel.z - nz * relVelN * (1/2) } })
      else (a, b)
    let a := ab.1
    let b := ab.2
    let a := { a with vel := { a.vel with x := a.vel.x - nx * SEPARATION_FORCE,
                                          z := a.vel.z - nz * SEPARATION_FORCE } }
    let b := { b with vel := { b.vel with x := b.vel.x + nx * SEPARATION_FORCE,
                                          z := b.vel.z + nz * SEPARATION_FORCE } }
    ({ a with speed := a.speed * BOUNCE_SLOWDOWN },
     { b with speed := b.speed * BOUNCE_SLOWDOWN })
  else (a, b)

/-- The inner loop (`j = i+1 .. n-1`): resolve `a` against each later kart
in order, threading the in-place mutations of both. -/
def resolveAgainst (sqrtFn : ℚ → ℚ) (a : Kart) : List Kart → Kart × List Kart
  | [] => (a, [])
  | b :: tl =>
    let p := collidePair sqrtFn a b
    let q := resolveAgainst sqrtFn p.1 tl
    (q.1, p.2 :: q.2)

/-- The outer loop (`i = 0 .. n-1`); the fuel argument equals the number
of remaining karts (`resolveAgainst` preserves list length). -/
def resolveLoop (sqrtFn : ℚ → ℚ) : ℕ → List Kart → List Kart
  | 0, l => l
  | _ + 1, [] => []
  | n + 1, a :: rest =>
    let p := resolveAgainst sqrtFn a rest
    p.1 :: resolveLoop sqrtFn n p.2

/-- `resolveKartCollisions(karts)`: every unordered pair, in the source's
loop order, with in-place mutation threaded through. -/
def resolveKartCollisions (sqrtFn : ℚ → ℚ) (karts : List Kart) : List Kart :=
  resolveLoop sqrtFn karts.length karts

end KartCollision

/-! ## Race progression state machine (`race.js`) -/

namespace Race

def TOTAL_LAPS : ℤ := 3

def CP_HIT_RADIUS : ℚ := 30

def CP_LOOKAHEAD : ℕ := 4

def COUNTDOWN_DURATION : ℚ := 4

def MIN_CP_FRACTION : ℚ := 1/2

def FINISH_LINE_WIDTH : ℚ := 60

/-- A world-space checkpoint position. -/
structure Checkpoint where
  x : ℚ
  z : ℚ
deriving DecidableEq, Repr

/-- Finish line origin plus forward normal. -/
structure FinishLine where
  x : ℚ
  z : ℚ
  nx : ℚ
  nz : ℚ
deriving DecidableEq, Repr

/-- Per-racer progress record; `kx`, `kz`, `krotY` are the pose of the
kart object the racer references (`r.kart.position`, `r.kart.rotation.y`),
flattened into the record. -/
structure Racer where
  kartId : ℕ
  kx : ℚ
  kz : ℚ
  krotY : ℚ
  isPlayer : Bool
  nextCheckpoint : ℕ
  lap : ℤ
  cpThisLap : ℤ
  checkpointsPassed : ℤ
  wrongWay : Bool
  finished : Bool
  position : ℤ
  prevSide : ℚ
deriving DecidableEq, Repr

/-- `RaceManager` state. -/
structure RaceState where
  checkpoints : List Checkpoint
  finishLine : Option FinishLine
  totalLaps : ℤ
  countdownTimer : ℚ
  countdownValue : ℤ
  racers : List Racer
deriving Repr

/-- `_signedDist(x, z)`; `1` when there is no finish line. -/
def signedDist (fl : Option FinishLine) (x z : ℚ) : ℚ :=
  match fl with
  | none => 1
  | some fl => (x - fl.x) * fl.nx + (z - fl.z) * fl.nz

/-- `isFrozen()`. -/
def isFrozen (rs : RaceState) : Bool :=
  rs.countdownValue > 0

/-- Lines 55-65: countdown timer decrement and discrete value. -/
def countdownStep (dt : ℚ) (rs : RaceState) : RaceState :=
  if rs.countdownTimer > 0 then
    let t := rs.countdownTimer - dt
    { rs with
      countdownTimer := t
      countdownValue :=
        if t > 3 then 3 else if t > 2 then 2 else if t > 1 then 1
        else if t > 0 then 0 else -1 }
  else { rs with countdownValue := -1 }

/-- Lines 77-88: scan `CP_LOOKAHEAD` checkpoints ahead and keep the
*furthest* one within the hit radius (`bestAdvance`). -/
def bestAdvance (sq : ℚ → ℚ) (cps : List Checkpoint) (r : Racer) : Option ℕ :=
  (List.range CP_LOOKAHEAD).foldl
    (fun acc look =>
      let cpIdx := (r.nextCheckpoint + look) % cps.length
      let cp := cps.getD cpIdx ⟨0, 0⟩
      let dx := cp.x - r.kx
      let dz := cp.z - r.kz
      if sq (dx * dx + dz * dz) < CP_HIT_RADIUS then some look else acc)
    none

/-- Lines 90-95: advance progress counters when a lookahead hit occurred. -/
def advanceCheckpoints (sq : ℚ → ℚ) (cps : List Checkpoint) (r : Racer) : Racer :=
  match bestAdvance sq cps r with
  | none => r
  | some look =>
    let steps : ℕ := look + 1
    { r with
      nextCheckpoint := (r.nextCheckpoint + steps) % cps.length
      checkpointsPassed := r.checkpointsPassed + steps
      cpThisLap := r.cpThisLap + steps }

/-- Lines 97-115: finish-line crossing test, lap increment / clamp, and
`prevSide` refresh. -/
def lineCross (fl : Option FinishLine) (totalLaps minCPs : ℤ) (r : Racer) : Racer :=
  match fl with
  | none => r
  | some fl =>
    let curSide := signedDist (some fl) r.kx r.kz
    let latDist := (r.kx - fl.x) * (-fl.nz) + (r.kz - fl.z) * fl.nx
    let withinLine := |latDist| ≤ FINISH_LINE_WIDTH / 2
    let r :=
      if r.prevSide < 0 ∧ curSide ≥ 0 ∧ r.cpThisLap ≥ minCPs ∧ withinLine then
        let r := { r with cpThisLap := 0, nextCheckpoint := 0, lap := r.lap + 1 }
        if r.lap > totalLaps then { r with finished := true, lap := totalLaps } else r
      else r
    { r with prevSide := curSide }

/-- Lines 117-129: per-tick wrong-way advisory flag. -/
def wrongWayStep (sq : ℚ → ℚ) (T : Trig) (cps : List Checkpoint) (r : Racer) : Racer :=
  let nextCP := cps.getD r.nextCheckpoint ⟨0, 0⟩
  let toCPx := nextCP.x - r.kx
  let toCPz := nextCP.z - r.kz
  let toCPdist := sq (toCPx * toCPx + toCPz * toCPz)
  if toCPdist > 1 then
    let fwdX := -(T.sin r.krotY)
    let fwdZ := -(T.cos r.krotY)
    let dot := (fwdX * toCPx + fwdZ * toCPz) / toCPdist
    { r with wrongWay := dot < -(3/10) }
  else { r with wrongWay := false }

/-- The body of the per-racer loop (lines 73-130); finished racers are
skipped (`continue`). -/
def racerStep (sq : ℚ → ℚ) (T : Trig) (cps : List Checkpoint)
    (fl : Option FinishLine) (totalLaps minCPs : ℤ) (r : Racer) : Racer :=
  if r.finished then r
  else wrongWayStep sq T cps (lineCross fl totalLaps minCPs (advanceCheckpoints sq cps r))

/-- The `_updatePositions` comparator (lines 136-145), returning the JS
comparator's number. -/
def cmpRacers (sq : ℚ → ℚ) (cps : List Checkpoint) (a b : Racer) : ℚ :=
  if a.finished ≠ b.finished then (if a.finished then -1 else 1)
  else if a.lap ≠ b.lap then ((b.lap - a.lap : ℤ) : ℚ)
  else if a.checkpointsPassed ≠ b.checkpointsPassed then
    ((b.checkpointsPassed - a.checkpointsPassed : ℤ) : ℚ)
  else
    let cpA := cps.getD a.nextCheckpoint ⟨0, 0⟩
    let cpB := cps.getD b.nextCheckpoint ⟨0, 0⟩
    let distA := sq ((cpA.x - a.kx) * (cpA.x - a.kx) + (cpA.z - a.kz) * (cpA.z - a.kz))
    let distB := sq ((cpB.x - b.kx) * (cpB.x - b.kx) + (cpB.z - b.kz) * (cpB.z - b.kz))
    distA - distB

/-- `[...this.racers].sort(comparator)` — JavaScript `Array.prototype.sort`
is stable, embedded as a stable insertion sort on the comparator's
non-positive ordering. -/
def sortRacers (sq : ℚ → ℚ) (cps : List Checkpoint) (racers : List Racer) : List Racer :=
  List.insertionSort (fun a b => cmpRacers sq cps a b ≤ 0) racers

/-- The rank (`position` value, 1-based) `_updatePositions` assigns to the
racer with the given kart id: its index in the sorted copy plus one. -/
def rankOf (sq : ℚ → ℚ) (cps : List Checkpoint) (racers : List Racer) (id : ℕ) : ℕ :=
  (sortRacers sq cps racers).findIdx (fun r => r.kartId = id) + 1

/-- `_updatePositions` (lines 135-150): write each racer's rank back. -/
def updatePositions (sq : ℚ → ℚ) (rs : RaceState) : RaceState :=
  { rs with
    racers := rs.racers.map
      (fun r => { r with position := (rankOf sq rs.checkpoints rs.racers r.kartId : ℤ) }) }

/-- `RaceManager.update(dt)` (lines 54-133). -/
def update (sq : ℚ → ℚ) (T : Trig) (dt : ℚ) (rs : RaceState) : RaceState :=
  let rs := countdownStep dt rs
  if isFrozen rs then rs
  else if rs.checkpoints.length < 2 then rs
  else
    let cpCount := rs.checkpoints.length
    let minCPs : ℤ := Int.floor ((cpCount : ℚ) * MIN_CP_FRACTION)
    let rs :=
      { rs with
        racers := rs.racers.map
          (racerStep sq T rs.checkpoints rs.finishLine rs.totalLaps minCPs) }
    updatePositions sq rs

end Race

/-! ## Server hazard subsystems (`server-items.js`, `server-boost-pads.js`) -/

/-- A held item (`'boost' | 'tnt' | 'missile'`). -/
inductive Item where
  | boost
  | tnt
  | missile
deriving DecidableEq, Repr

/-- The kart fields the server hazard subsystems read and write. -/
structure SKart where
  id : ℕ
  x : ℚ
  z : ℚ
  heldItem : Option Item
  boostSpeed : ℚ
  boostTimer : ℚ
deriving DecidableEq, Repr

namespace ServerItems

def PICKUP_RADIUS : ℚ := 4

def RESPAWN_TIME : ℚ := 5

def AVAILABLE_ITEMS : List Item := [.boost, .tnt, .missile]

/-- One item box (world position, respawn timer, stable index). -/
structure Box where
  x : ℚ
  z : ℚ
  respawnTimer : ℚ
  index : ℕ
deriving DecidableEq, Repr

/-- An `item_pickup` event. -/
structure PickupEvent where
  kartId : ℕ
  item : Item
  boxIndex : ℕ
deriving DecidableEq, Repr

/-- Result of scanning the karts for one box. -/
structure ScanResult where
  karts : List SKart
  rng : List ℚ
  box : Box
  events : List PickupEvent
deriving Repr

/-- `AVAILABLE_ITEMS[Math.floor(Math.random() * AVAILABLE_ITEMS.length)]`;
the random draw is the head of the explicit `rng` stream (JavaScript
guarantees draws in `[0, 1)`). -/
def drawItem (draw : ℚ) : Item :=
  AVAILABLE_ITEMS.getD (Int.floor (draw * 3)).toNat .boost

/-- The inner kart loop for one box (lines 30-42): the first itemless kart
within the pickup radius is granted a random item and the loop breaks. -/
def grantScan (box : Box) (rng : List ℚ) : List SKart → ScanResult
  | [] => ⟨[], rng, box, []⟩
  | k :: tl =>
    if k.heldItem.isSome then
      let r := grantScan box rng tl
      ⟨k :: r.karts, r.rng, r.box, r.events⟩
    else
      let dx := k.x - box.x
      let dz := k.z - box.z
      if dx * dx + dz * dz < PICKUP_RADIUS * PICKUP_RADIUS then
        let item := drawItem (rng.headD 0)
        ⟨{ k with heldItem := some item } :: tl, rng.tail,
         { box with respawnTimer := RESPAWN_TIME },
         [⟨k.id, item, box.index⟩]⟩
      else
        let r := grantScan box rng tl
        ⟨k :: r.karts, r.rng, r.box, r.events⟩

/-- Result of `createServerItemBoxes(...).update(karts, dt)`. -/
structure ItemsResult where
  boxes : List Box
  karts : List SKart
  rng : List ℚ
  events : List PickupEvent
deriving Repr

/-- `update(karts, dt)` (lines 22-46), with the `Math.random()` draws made
an explicit input stream consumed one value per grant. -/
def update (dt : ℚ) (karts : List SKart) (rng : List ℚ) : List Box → ItemsResult
  | [] => ⟨[], karts, rng, []⟩
  | box :: rest =>
    if box.respawnTimer > 0 then
      let t := box.respawnTimer - dt
      let box := { box with respawnTimer := if t < 0 then 0 else t }
      let r := update dt karts rng rest
      ⟨box :: r.boxes, r.karts, r.rng, r.events⟩
    else
      let g := grantScan box rng karts
      let r := update dt g.karts g.rng rest
      ⟨g.box :: r.boxes, r.karts, r.rng, g.events ++ r.events⟩

end ServerItems

namespace ServerBoostPads

def PAD_TRIGGER_RADIUS : ℚ := 4

def PAD_COOLDOWN : ℚ := 3/2

def BOOST_SPEED : ℚ := 20

def BOOST_DURATION : ℚ := 6/5

/-- One boost pad: world position and its per-kart cooldown map. -/
structure Pad where
  x : ℚ
  z : ℚ
  cooldowns : List (ℕ × ℚ)
deriving DecidableEq, Repr

/-- A `boost_pad` event. -/
structure PadEvent where
  kartId : ℕ
deriving DecidableEq, Repr

/-- Lines 24-28: advance every cooldown, deleting expired entries. -/
def stepCooldowns (dt : ℚ) (cds : List (ℕ × ℚ)) : List (ℕ × ℚ) :=
  cds.filterMap (fun e => if e.2 - dt ≤ 0 then none else some (e.1, e.2 - dt))

/-- Lines 30-41: trigger the pad for every kart in proximity without an
active cooldown (no break — all karts are scanned). -/
def padScan (pad : Pad) : List SKart → Pad × List SKart × List PadEvent
  | [] => (pad, [], [])
  | k :: tl =>
    if (pad.cooldowns.lookup k.id).isSome then
      let r := padScan pad tl
      (r.1, k :: r.2.1, r.2.2)
    else
      let dx := k.x - pad.x
      let dz := k.z - pad.z
      if dx * dx + dz * dz < PAD_TRIGGER_RADIUS * PAD_TRIGGER_RADIUS then
        let k := { k with boostTimer := BOOST_DURATION, boostSpeed := BOOST_SPEED }
        let pad := { pad with cooldowns := pad.cooldowns ++ [(k.id, PAD_COOLDOWN)] }
        let r := padScan pad tl
        (r.1, k :: r.2.1, ⟨k.id⟩ :: r.2.2)
      else
        let r := padScan pad tl
        (r.1, k :: r.2.1, r.2.2)

/-- `createServerBoostPads(...).update(karts, dt)` (lines 22-46). -/
def update (dt : ℚ) (karts : List SKart) : List Pad → List Pad × List SKart × List PadEvent
  | [] => ([], karts, [])
  | pad :: rest =>
    let pad := { pad with cooldowns := stepCooldowns dt pad.cooldowns }
    let s := padScan pad karts
    let r := update dt s.2.1 rest
    (s.1 :: r.1, r.2.1, s.2.2 ++ r.2.2)

end ServerBoostPads

/-! ## Room tick and input handling (`server/room.js`)

Player/kart ids are embedded as naturals.  The room model keeps exactly
the state the verified claims are about: the kart objects (physics state
of `_createServerKart` plus `heldItem`), the race manager state, the
latest stored input and acknowledgment sequence per player, and the bot
input objects.  The interior of the non-frozen branch of `_tick`
(steps 2-10: bot AI, physics, collisions, hazards, item activation and
tap clearing) is taken as an explicit function parameter `simBody`; every
theorem about frozen ticks holds for all `simBody`, because the source
guards that entire block behind `if (!frozen)`.  Snapshot emission only
reads this state (the event buffer it drains is not modeled). -/

namespace Room

def TICK_RATE : ℚ := 60

def TICK_DT : ℚ := 1/60

/-- One kart object owned by the room, together with its per-kart
`KartPhysics` instance state and held item. -/
structure RoomKart where
  id : ℕ
  phys : PhysState
  heldItem : Option Item
deriving DecidableEq, Repr

/-- `playerInputs` map entry: `{ seq, input }`. -/
structure StoredInput where
  seq : ℕ
  input : Input
deriving DecidableEq, Repr

/-- The room state the claims range over. -/
structure RoomSim where
  tick : ℕ
  race : Race.RaceState
  karts : List RoomKart
  bots : List (ℕ × Input)
  playerInputs : List (ℕ × StoredInput)
  playerLastSeq : List (ℕ × ℕ)
deriving Repr

/-- JavaScript `Map.set`: replace in place, else append. -/
def mapSet {β : Type} (k : ℕ) (v : β) : List (ℕ × β) → List (ℕ × β)
  | [] => [(k, v)]
  | (a, b) :: tl => if a = k then (a, v) :: tl else (a, b) :: mapSet k v tl

/-- `GameRoom.handleInput(playerId, seq, input)` (lines 216-219). -/
def handleInput (s : RoomSim) (playerId seq : ℕ) (input : Input) : RoomSim :=
  { s with
    playerInputs := mapSet playerId ⟨seq, input⟩ s.playerInputs
    playerLastSeq := mapSet playerId seq s.playerLastSeq }

/-- The default input used when no input was ever stored (line 282). -/
def defaultInput : Input :=
  ⟨0, 0, false, false, false, false, false⟩

/-- The input the physics step of `_tick` consumes for one kart
(lines 276-283): a bot's synthesized input, else the stored latest input,
else the default. -/
def consumedInput (s : RoomSim) (kartId : ℕ) : Input :=
  match s.bots.lookup kartId with
  | some botInput => botInput
  | none =>
    match s.playerInputs.lookup kartId with
    | some stored => stored.input
    | none => defaultInput

/-- Refresh each racer's flattened kart pose from the kart object it
references (racers hold live references to the room's kart objects). -/
def syncRace (s : RoomSim) : Race.RaceState :=
  { s.race with
    racers := s.race.racers.map
      (fun r =>
        match s.karts.find? (fun k => k.id = r.kartId) with
        | some k => { r with kx := k.phys.kart.pos.x, kz := k.phys.kart.pos.z,
                             krotY := k.phys.kart.rotY }
        | none => r) }

/-- `GameRoom._tick()` (lines 256-356): advance the tick counter, run the
race update, and run the simulation body (steps 2-10) only when the race
is not frozen; `simBody` stands for that entire guarded block. -/
def tickRoom (sq : ℚ → ℚ) (T : Trig) (simBody : RoomSim → RoomSim) (s : RoomSim) : RoomSim :=
  let s := { s with tick := s.tick + 1 }
  let s := { s with race := Race.update sq T TICK_DT (syncRace s) }
  if Race.isFrozen s.race then s else simBody s

end Room

/-! ## Room registry (`server/lobby.js`)

Connections (`ws`) and player ids are embedded as naturals (the random
player-id string is an argument).  Only the registry-relevant projection
of `GameRoom` is modeled: the player map, the `running` flag and whether
the tick interval is live (`tickInterval !== null`).  `startGame`'s
world-building is irrelevant to the registry claims and omitted;
`removePlayer`'s bot conversion touches only game state, not the
registry. -/

namespace Lobby

/-- Registry-relevant projection of one `GameRoom`. -/
structure RoomR where
  name : ℕ
  mapId : ℕ
  players : List (ℕ × Bool × ℕ)
  running : Bool
  tickRunning : Bool
deriving DecidableEq, Repr

/-- `GameRoom._nextSlot()`. -/
def nextSlot (r : RoomR) : ℕ :=
  let used := r.players.map (fun p => p.2.2)
  if 0 ∉ used then 0 else if 1 ∉ used then 1 else if 2 ∉ used then 2
  else if 3 ∉ used then 3 else 0

/-- `GameRoom.addPlayer`. -/
def addPlayer (r : RoomR) (playerId : ℕ) : RoomR :=
  { r with players := Room.mapSet playerId (false, nextSlot r) r.players }

/-- `GameRoom.removePlayer` (registry effect only; during a running game
the kart is converted to a bot, which does not touch the registry). -/
def removePlayer (r : RoomR) (playerId : ℕ) : RoomR :=
  { r with players := r.players.filter (fun p => p.1 ≠ playerId) }

/-- `GameRoom.toggleReady`. -/
def toggleReady (r : RoomR) (playerId : ℕ) : RoomR :=
  { r with
    players := r.players.map
      (fun p => if p.1 = playerId then (p.1, !p.2.1, p.2.2) else p) }

/-- `GameRoom.allReady`. -/
def allReady (r : RoomR) : Bool :=
  r.players.all (fun p => p.2.1)

/-- `GameRoom.startGame()`: sets `running` and starts the tick interval. -/
def startGame (r : RoomR) : RoomR :=
  { r with running := true, tickRunning := true }

/-- `GameRoom.stop()`: clears the interval and the running flag.  (No call
site exists anywhere in the server source.) -/
def stop (r : RoomR) : RoomR :=
  { r with running := false, tickRunning := false }

/-- One tracked client connection. -/
structure ClientRec where
  ws : ℕ
  playerId : ℕ
  roomId : Option ℕ
deriving DecidableEq, Repr

/-- `LobbyManager` state (plus the module-level `nextRoomId` counter). -/
structure LobbyState where
  rooms : List (ℕ × RoomR)
  clients : List ClientRec
  nextRoomId : ℕ
deriving Repr

/-- `LobbyManager.addClient(ws)`; the randomly generated player id is an
explicit argument. -/
def addClient (l : LobbyState) (ws playerId : ℕ) : LobbyState :=
  { l with clients := l.clients ++ [⟨ws, playerId, none⟩] }

/-- The shared room-departure logic of `removeClient` / `_leaveRoom`:
remove the player, then delete the room only when it is empty *and not
running*. -/
def dropFromRoom (l : LobbyState) (roomId playerId : ℕ) : LobbyState :=
  match l.rooms.lookup roomId with
  | none => l
  | some room =>
    let room := removePlayer room playerId
    if room.players.length = 0 ∧ room.running = false then
      { l with rooms := l.rooms.filter (fun e => e.1 ≠ roomId) }
    else
      { l with rooms := Room.mapSet roomId room l.rooms }

/-- `LobbyManager.removeClient(ws)` (lines 20-35). -/
def removeClient (l : LobbyState) (ws : ℕ) : LobbyState :=
  match l.clients.find? (fun c => c.ws = ws) with
  | none => l
  | some client =>
    let l :=
      match client.roomId with
      | some roomId => dropFromRoom l roomId client.playerId
      | none => l
    { l with clients := l.clients.filter (fun c => c.ws ≠ ws) }

/-- `lobby:leave` handling (`_leaveRoom`). -/
def leaveRoom (l : LobbyState) (ws : ℕ) : LobbyState :=
  match l.clients.find? (fun c => c.ws = ws) with
  | none => l
  | some client =>
    match client.roomId with
    | none => l
    | some roomId =>
      let l := dropFromRoom l roomId client.playerId
      { l with
        clients := l.clients.map
          (fun c => if c.ws = ws then { c with roomId := none } else c) }

/-- `lobby:create` handling: leave the current room if any, then make a
room and add the creator. -/
def createRoom (l : LobbyState) (ws name mapId : ℕ) : LobbyState :=
  match l.clients.find? (fun c => c.ws = ws) with
  | none => l
  | some client0 =>
    let l := if client0.roomId.isSome then leaveRoom l ws else l
    let client := { client0 with roomId := none }
    let roomId := l.nextRoomId
    let room : RoomR := ⟨name, mapId, [], false, false⟩
    let room := addPlayer room client.playerId
    { l with
      rooms := l.rooms ++ [(roomId, room)]
      nextRoomId := l.nextRoomId + 1
      clients := l.clients.map
        (fun c => if c.ws = ws then { c with roomId := some roomId } else c) }

/-- `lobby:ready` handling: toggle, then start the game when everyone
present is ready. -/
def readyMsg (l : LobbyState) (ws : ℕ) : LobbyState :=
  match l.clients.find? (fun c => c.ws = ws) with
  | none => l
  | some client =>
    match client.roomId with
    | none => l
    | some roomId =>
      match l.rooms.lookup roomId with
      | none => l
      | some room =>
        let room := toggleReady room client.playerId
        let room :=
          if allReady room ∧ room.players.length ≥ 1 then startGame room else room
        { l with rooms := Room.mapSet roomId room l.rooms }

end Lobby

/-! ## Client-side prediction (`net/prediction.js`) -/

namespace Prediction

def SNAP_THRESHOLD : ℚ := 3

def BLEND_RATE : ℚ := 5

/-- The local-kart fields `onServerState` reads or writes (all other kart
fields are untouched by it). -/
structure CKart where
  pos : Vec3
  heldItem : Option Item
  boostSpeed : ℚ
  boostTimer : ℚ
deriving DecidableEq, Repr

/-- One kart entry of an authoritative snapshot (fields used here). -/
structure ServerKartState where
  x : ℚ
  y : ℚ
  z : ℚ
  heldItem : Option Item
  boostSpeed : ℚ
  boostTimer : ℚ
deriving DecidableEq, Repr

/-- `Prediction` instance state: the correction offset being blended out. -/
structure PredState where
  offset : Vec3
deriving DecidableEq, Repr

/-- `Prediction.onServerState(kart, serverState)` (lines 51-69). -/
def onServerState (sq : ℚ → ℚ) (kart : CKart) (p : PredState)
    (server : ServerKartState) : CKart × PredState :=
  let dx := server.x - kart.pos.x
  let dz := server.z - kart.pos.z
  let dist := sq (dx * dx + dz * dz)
  let kart := { kart with heldItem := server.heldItem, boostSpeed := server.boostSpeed,
                          boostTimer := server.boostTimer }
  if dist < SNAP_THRESHOLD then (kart, p)
  else (kart, { offset := ⟨dx, server.y - kart.pos.y, dz⟩ })

/-- The correction-blend half of `Prediction.applyLocal` (lines 30-44),
acting on the kart position and the offset. -/
def blendCorrection (sq : ℚ → ℚ) (pos : Vec3) (p : PredState) (dt : ℚ) : Vec3 × PredState :=
  let o := p.offset
  if o.x * o.x + o.y * o.y + o.z * o.z > 1/10000 then
    let blendStep := BLEND_RATE * dt
    let len := sq (o.x * o.x + o.y * o.y + o.z * o.z)
    if len ≤ blendStep then
      (⟨pos.x + o.x, pos.y + o.y, pos.z + o.z⟩, { offset := ⟨0, 0, 0⟩ })
    else
      let fraction := blendStep / len
      (⟨pos.x + o.x * fraction, pos.y + o.y * fraction, pos.z + o.z * fraction⟩,
       { offset := ⟨o.x * (1 - fraction), o.y * (1 - fraction), o.z * (1 - fraction)⟩ })
  else (pos, p)

end Prediction

/-! ## Concrete instances used in closed runs

`flatTrack` is the everywhere-flat, all-track-terrain map; `zeroTrig`
agrees with real sine/cosine at the only angle the closed runs evaluate
(`sin 0 = 0`, `cos 0 = 1` — exact equalities of the JavaScript functions
as well), and the closed runs never reach a square-root call site, so the
`sqrtFn` entry of `cEnv` is irrelevant to them. -/

def flatTrack : Track where
  getGroundHeight := fun _ _ => 0
  getGroundNormal := fun _ _ => ⟨0, 1, 0⟩
  getTerrainType := fun _ _ => 0

def zeroTrig : Trig where
  sin := fun _ => 0
  cos := fun _ => 1

def cEnv : PhysicsEnv where
  obstacles := []
  track := flatTrack
  trig := zeroTrig
  sqrtFn := fun _ => 0

/-- A kart flying forward (world `+z`) while facing `-z` (heading `0`),
just above flat ground: on this tick it lands and the landing
reprojection reverses its speed. -/
def landingKart : Kart where
  pos := ⟨0, 3/10, 0⟩
  rotY := 0
  vel := ⟨0, 0, 30⟩
  speed := 30
  steerAngle := 0
  grounded := false
  slideActive := false
  slideButton := none
  slideDir := 0
  slideAngle := 0
  slideTimer := 0
  slideBoosts := 0
  boostTimer := 0
  boostSpeed := 0
  spawnPoint := ⟨0, 5, 0⟩

/-- Neutral input: no acceleration, no steering, no buttons. -/
def idleInput : Input := ⟨0, 0, false, false, false, false, false⟩

/-- A grounded kart rolling forward, used for non-landing witness runs. -/
def groundedKart : Kart where
  pos := ⟨0, 1/50, 0⟩
  rotY := 0
  vel := ⟨0, 0, -20⟩
  speed := 20
  steerAngle := 0
  grounded := true
  slideActive := false
  slideButton := none
  slideDir := 0
  slideAngle := 0
  slideTimer := 0
  slideBoosts := 0
  boostTimer := 0
  boostSpeed := 0
  spawnPoint := ⟨0, 5, 0⟩

/-- A kart one second into an active power-slide on the `z` hop button,
at charge level 0. -/
def slidingKart : Kart where
  pos := ⟨0, 1/50, 0⟩
  rotY := 0
  vel := ⟨0, 0, -20⟩
  speed := 20
  steerAngle := 1
  grounded := true
  slideActive := true
  slideButton := some .z
  slideDir := 1
  slideAngle := 1/2
  slideTimer := 1
  slideBoosts := 0
  boostTimer := 0
  boostSpeed := 0
  spawnPoint := ⟨0, 5, 0⟩

/-- Input during a slide on `z`: hop button still held, steering into the
slide, and a fresh tap of the *other* hop button (`x`). -/
def slideTapInput : Input := ⟨1, 1, true, false, false, true, false⟩

/-- Two overlapping karts two units apart (center distance 2, combined
radius 3) used for concrete collision runs. -/
def kartA : Kart :=
  { landingKart with pos := ⟨0, 0, 0⟩, vel := ⟨5, -2, 1⟩, speed := 10 }

def kartB : Kart :=
  { landingKart with pos := ⟨2, 0, 0⟩, vel := ⟨-3, 4, 2⟩, speed := 20 }

/-- Concrete local kart / prediction state / snapshot entry for closed
reconciliation runs; the server position is 5 world units away
horizontally (`d² = 25`, a perfect square). -/
def predKart : Prediction.CKart := ⟨⟨0, 0, 0⟩, none, 0, 0⟩

def predOffset0 : Prediction.PredState := ⟨⟨0, 0, 0⟩⟩

def predServer : Prediction.ServerKartState := ⟨4, 1, 3, some .boost, 15, 8/5⟩

/-- Four checkpoints far from the finish area (no lookahead hit fires in
the closed run). -/
def cpsFour : List Race.Checkpoint := [⟨1000, 1000⟩, ⟨1000, 1000⟩, ⟨1000, 1000⟩, ⟨1000, 1000⟩]

/-- A finish line at the origin whose normal points toward `-z`. -/
def finishL : Race.FinishLine := ⟨0, 0, 0, -1⟩

/-- A racer on its final lap that crossed the finish plane this tick
(`prevSide = -1`, current side `+1`), centered on the line, with 5 of the
4-checkpoint lap already passed. -/
def crossingRacer : Race.Racer :=
  ⟨0, 0, -1, 0, true, 0, 3, 5, 13, false, false, 1, -1⟩

/-- The lexicographic sort key the `_updatePositions` comparator
implements: finished-first (`0` before `1`), then lap descending, then
total checkpoints descending, then distance-to-next-checkpoint ascending
(descending fields negated). -/
def Race.rKey (sq : ℚ → ℚ) (cps : List Race.Checkpoint) (r : Race.Racer) :
    ℚ × ℚ × ℚ × ℚ :=
  ((if r.finished then 0 else 1), -(r.lap : ℚ), -(r.checkpointsPassed : ℚ),
    sq (((cps.getD r.nextCheckpoint ⟨0, 0⟩).x - r.kx) *
          ((cps.getD r.nextCheckpoint ⟨0, 0⟩).x - r.kx) +
        ((cps.getD r.nextCheckpoint ⟨0, 0⟩).z - r.kz) *
          ((cps.getD r.nextCheckpoint ⟨0, 0⟩).z - r.kz)))

/-- Lexicographic order on rank-key quadruples. -/
def Race.keyLE (k1 k2 : ℚ × ℚ × ℚ × ℚ) : Prop :=
  k1.1 < k2.1 ∨ (k1.1 = k2.1 ∧ (k1.2.1 < k2.2.1 ∨ (k1.2.1 = k2.2.1 ∧
    (k1.2.2.1 < k2.2.2.1 ∨ (k1.2.2.1 = k2.2.2.1 ∧ k1.2.2.2 ≤ k2.2.2.2)))))

/-- Two racers with identical progress and identical kart positions
(hence identical comparator keys), distinguished only by kart id. -/
def tieRacerA : Race.Racer :=
  ⟨0, 0, 0, 0, true, 0, 1, 0, 0, false, false, 1, 1⟩

def tieRacerB : Race.Racer :=
  ⟨1, 0, 0, 0, true, 0, 1, 0, 0, false, false, 1, 1⟩

/-- A racer one lap ahead of `tieRacerA` (distinct comparator key). -/
def fastRacer : Race.Racer :=
  ⟨1, 0, 0, 0, true, 0, 2, 0, 0, false, false, 1, 1⟩

/-- Replace any held item by a fixed token: two kart lists are equal
under this map iff they agree on everything except *which* item is
held. -/
def ServerItems.eraseItemK (k : SKart) : SKart :=
  { k with heldItem := k.heldItem.map (fun _ => Item.boost) }

/-- The same for pickup events. -/
def ServerItems.eraseItemE (e : ServerItems.PickupEvent) : ServerItems.PickupEvent :=
  { e with item := Item.boost }

/-- An item box at the origin, ready (no respawn timer). -/
def boxC : ServerItems.Box := ⟨0, 0, 0, 0⟩

/-- An itemless kart within pickup radius of `boxC` (`d² = 2 < 16`). -/
def skartC : SKart := ⟨0, 1, 1, none, 0, 0⟩

/-- The last delivered input message for one kart in a delivery sequence
(later entries win). -/
def Room.lastDelivery (pid : ℕ) : List (ℕ × ℕ × Input) → Option (ℕ × Input)
  | [] => none
  | d :: tl =>
    match lastDelivery pid tl with
    | some x => some x
    | none => if d.1 = pid then some d.2 else none

/-- Deliver a sequence of `(playerId, seq, input)` messages through
`handleInput` in order. -/
def Room.deliverAll (s : Room.RoomSim) (L : List (ℕ × ℕ × Input)) : Room.RoomSim :=
  L.foldl (fun s d => Room.handleInput s d.1 d.2.1 d.2.2) s

/-- Race state at the start of the countdown (`3, 2, 1, GO`). -/
def race0 : Race.RaceState := ⟨[], none, 3, 4, 3, []⟩

/-- An empty room at the start of the countdown. -/
def roomSim0 : Room.RoomSim := ⟨0, race0, [], [], [], []⟩

/-- An input with a latched hop tap. -/
def tapInput : Input := ⟨0, 0, false, false, true, false, false⟩

/-- An input holding full throttle. -/
def accelInput : Input := ⟨1, 0, false, false, false, false, false⟩

/-- A countdown-phase room in which player 0's stored input still has its
hop tap latched. -/
def tapStored : Room.RoomSim := { roomSim0 with playerInputs := [(0, ⟨7, tapInput⟩)] }

/-- The lobby run that leaks a room: a client connects, creates a room,
readies up (which starts the game), then disconnects. -/
def leakRun : Lobby.LobbyState :=
  Lobby.removeClient
    (Lobby.readyMsg
      (Lobby.createRoom (Lobby.addClient ⟨[], [], 1⟩ 0 7) 0 5 9) 0) 0

/-! ## Theorems

### Helper lemmas about the movement-model steps -/

namespace KartPhysics

theorem abs_jsSign_le_one (q : ℚ) : |jsSign q| ≤ 1 := by
  unfold jsSign
  split
  · simp
  · split <;> simp

theorem jsSign_mul_abs_le (q v : ℚ) : |jsSign q * v| ≤ |v| := by
  rw [abs_mul]
  calc |jsSign q| * |v| ≤ 1 * |v| :=
        mul_le_mul_of_nonneg_right (abs_jsSign_le_one q) (abs_nonneg v)
    _ = |v| := one_mul _

theorem hopInit_no_tap (s : Stats) (input : Input) (k : Kart)
    (hz : input.hopZTap = false) (hx : input.hopXTap = false) :
    hopInit s input k = k := by
  unfold hopInit
  rw [hz, hx]
  simp

theorem hopInit_of_slideActive (s : Stats) (input : Input) (k : Kart)
    (h : k.slideActive = true) : hopInit s input k = k := by
  unfold hopInit
  rw [h]
  simp

theorem hopInit_speed (s : Stats) (input : Input) (k : Kart) :
    (hopInit s input k).speed = k.speed := by
  unfold hopInit
  split <;> rfl

theorem hopInit_boost (s : Stats) (input : Input) (k : Kart) :
    (hopInit s input k).boostSpeed = k.boostSpeed := by
  unfold hopInit
  split <;> rfl

theorem slideEntry_of_slideActive (input : Input) (k : Kart)
    (h : k.slideActive = true) : slideEntry input k = k := by
  unfold slideEntry
  rw [h]
  simp

theorem slideEntry_speed (input : Input) (k : Kart) :
    (slideEntry input k).speed = k.speed := by
  unfold slideEntry
  (try dsimp only)
  repeat' split
  all_goals rfl

theorem slideEntry_boost (input : Input) (k : Kart) :
    (slideEntry input k).boostSpeed = k.boostSpeed := by
  unfold slideEntry
  (try dsimp only)
  repeat' split
  all_goals rfl

theorem slideEntry_grounded (input : Input) (k : Kart) :
    (slideEntry input k).grounded = k.grounded := by
  unfold slideEntry
  (try dsimp only)
  repeat' split
  all_goals rfl

theorem slideEnd_speed (input : Input) (k : Kart) :
    (slideEnd input k).speed = k.speed := by
  unfold slideEnd
  split <;> rfl

theorem slideEnd_boost (input : Input) (k : Kart) :
    (slideEnd input k).boostSpeed = k.boostSpeed := by
  unfold slideEnd
  split <;> rfl

theorem slideEnd_grounded (input : Input) (k : Kart) :
    (slideEnd input k).grounded = k.grounded := by
  unfold slideEnd
  split <;> rfl

theorem slideCharge_speed (s : Stats) (tap : Bool) (dt : ℚ) (k : Kart) :
    (slideCharge s tap dt k).speed = k.speed := by
  unfold slideCharge
  (try dsimp only)
  repeat' split
  all_goals rfl

theorem slideCharge_grounded (s : Stats) (tap : Bool) (dt : ℚ) (k : Kart) :
    (slideCharge s tap dt k).grounded = k.grounded := by
  unfold slideCharge
  (try dsimp only)
  repeat' split
  all_goals rfl

theorem slideCharge_slideActive (s : Stats) (tap : Bool) (dt : ℚ) (k : Kart) :
    (slideCharge s tap dt k).slideActive = k.slideActive := by
  unfold slideCharge
  (try dsimp only)
  repeat' split
  all_goals rfl

theorem slideCharge_boost_nonneg (s : Stats) (tap : Bool) (dt : ℚ) (k : Kart)
    (hb1 : 0 ≤ s.boostSpeeds.1) (hb2 : 0 ≤ s.boostSpeeds.2.1)
    (hb3 : 0 ≤ s.boostSpeeds.2.2) (h : 0 ≤ k.boostSpeed) :
    0 ≤ (slideCharge s tap dt k).boostSpeed := by
  unfold slideCharge idx3
  (try dsimp only)
  repeat' split
  all_goals simpa

theorem boostDecay_speed (dt : ℚ) (k : Kart) :
    (boostDecay dt k).speed = k.speed := by
  unfold boostDecay
  (try dsimp only)
  repeat' split
  all_goals rfl

theorem boostDecay_grounded (dt : ℚ) (k : Kart) :
    (boostDecay dt k).grounded = k.grounded := by
  unfold boostDecay
  (try dsimp only)
  repeat' split
  all_goals rfl

theorem boostDecay_slideActive (dt : ℚ) (k : Kart) :
    (boostDecay dt k).slideActive = k.slideActive := by
  unfold boostDecay
  (try dsimp only)
  repeat' split
  all_goals rfl

theorem boostDecay_boost_nonneg (dt : ℚ) (k : Kart) (h : 0 ≤ k.boostSpeed) :
    0 ≤ (boostDecay dt k).boostSpeed := by
  unfold boostDecay
  (try dsimp only)
  repeat' split
  · exact h
  · exact le_max_left 0 _
  · exact h

theorem steering_speed (s : Stats) (input : Input) (dt : ℚ) (k : Kart) :
    (steering s input dt k).speed = k.speed := by
  unfold steering
  (try dsimp only)
  repeat' split
  all_goals rfl

theorem steering_boost (s : Stats) (input : Input) (dt : ℚ) (k : Kart) :
    (steering s input dt k).boostSpeed = k.boostSpeed := by
  unfold steering
  (try dsimp only)
  repeat' split
  all_goals rfl

theorem steering_grounded (s : Stats) (input : Input) (dt : ℚ) (k : Kart) :
    (steering s input dt k).grounded = k.grounded := by
  unfold steering
  (try dsimp only)
  repeat' split
  all_goals rfl

theorem steering_slideActive (s : Stats) (input : Input) (dt : ℚ) (k : Kart) :
    (steering s input dt k).slideActive = k.slideActive := by
  unfold steering
  (try dsimp only)
  repeat' split
  all_goals rfl

theorem slideAngleStep_speed (dt : ℚ) (k : Kart) :
    (slideAngleStep dt k).speed = k.speed := rfl

theorem slideAngleStep_boost (dt : ℚ) (k : Kart) :
    (slideAngleStep dt k).boostSpeed = k.boostSpeed := rfl

theorem slideAngleStep_grounded (dt : ℚ) (k : Kart) :
    (slideAngleStep dt k).grounded = k.grounded := rfl

theorem slideAngleStep_slideActive (dt : ℚ) (k : Kart) :
    (slideAngleStep dt k).slideActive = k.slideActive := rfl

theorem slopeStep_boost (gn fwd : Vec3) (dt : ℚ) (k : Kart) :
    (slopeStep gn fwd dt k).boostSpeed = k.boostSpeed := by
  unfold slopeStep
  split <;> rfl

theorem slopeStep_grounded (gn fwd : Vec3) (dt : ℚ) (k : Kart) :
    (slopeStep gn fwd dt k).grounded = k.grounded := by
  unfold slopeStep
  split <;> rfl

theorem slopeStep_slideActive (gn fwd : Vec3) (dt : ℚ) (k : Kart) :
    (slopeStep gn fwd dt k).slideActive = k.slideActive := by
  unfold slopeStep
  split <;> rfl

theorem accelStep_boost (s : Stats) (o : Bool) (input : Input) (dt : ℚ) (k : Kart) :
    (accelStep s o input dt k).boostSpeed = k.boostSpeed := rfl

theorem accelStep_grounded (s : Stats) (o : Bool) (input : Input) (dt : ℚ) (k : Kart) :
    (accelStep s o input dt k).grounded = k.grounded := rfl

theorem clampStep_boost (s : Stats) (o : Bool) (k : Kart) :
    (clampStep s o k).boostSpeed = k.boostSpeed := rfl

theorem clampStep_grounded (s : Stats) (o : Bool) (k : Kart) :
    (clampStep s o k).grounded = k.grounded := rfl

/-- Arithmetic core of `clampStep`: the clamp plus the boost floor stay
inside `[-0.4 m, m + b]`. -/
theorem clampFloor_bounds (m b v : ℚ) (hm : 0 ≤ m) (hb : 0 ≤ b) :
    -m * (2/5) ≤ (if b > 0 then max (max (-m * (2/5)) (min (m + b) v)) (m + b * (4/5))
                  else max (-m * (2/5)) (min (m + b) v)) ∧
      (if b > 0 then max (max (-m * (2/5)) (min (m + b) v)) (m + b * (4/5))
       else max (-m * (2/5)) (min (m + b) v)) ≤ m + b := by
  constructor
  · split
    · exact le_trans (le_max_left _ _) (le_max_left _ _)
    · exact le_max_left _ _
  · split
    · apply max_le
      · apply max_le
        · nlinarith
        · exact min_le_left _ _
      · nlinarith
    · apply max_le
      · nlinarith
      · exact min_le_left _ _

/-- The post-clamp speed lies in `[-0.4·maxSpd, maxSpd + boost]`. -/
theorem clampStep_bounds (s : Stats) (o : Bool) (k : Kart)
    (hms : 0 ≤ s.maxSpeed) (hb : 0 ≤ k.boostSpeed) :
    -(s.maxSpeed * (if o then 3/5 else 1)) * (2/5) ≤ (clampStep s o k).speed ∧
      (clampStep s o k).speed ≤ s.maxSpeed * (if o then 3/5 else 1) + k.boostSpeed := by
  have hm : (0 : ℚ) ≤ s.maxSpeed * (if o then 3/5 else 1) := by
    split <;> nlinarith
  have h := clampFloor_bounds (s.maxSpeed * (if o then 3/5 else 1)) k.boostSpeed k.speed hm hb
  exact ⟨h.1, h.2⟩

theorem composeVelocity_speed (s : Stats) (fwd : Vec3) (input : Input) (dt : ℚ) (k : Kart) :
    (composeVelocity s fwd input dt k).speed = k.speed := by
  unfold composeVelocity
  (try dsimp only)
  repeat' split
  all_goals rfl

theorem composeVelocity_boost (s : Stats) (fwd : Vec3) (input : Input) (dt : ℚ) (k : Kart) :
    (composeVelocity s fwd input dt k).boostSpeed = k.boostSpeed := by
  unfold composeVelocity
  (try dsimp only)
  repeat' split
  all_goals rfl

theorem composeVelocity_grounded (s : Stats) (fwd : Vec3) (input : Input) (dt : ℚ) (k : Kart) :
    (composeVelocity s fwd input dt k).grounded = k.grounded := by
  unfold composeVelocity
  (try dsimp only)
  repeat' split
  all_goals rfl

theorem integrate_speed (dt : ℚ) (k : Kart) : (integrate dt k).speed = k.speed := rfl

theorem integrate_boost (dt : ℚ) (k : Kart) : (integrate dt k).boostSpeed = k.boostSpeed := rfl

theorem integrate_grounded (dt : ℚ) (k : Kart) : (integrate dt k).grounded = k.grounded := rfl

theorem hardTerrain_speed (env : PhysicsEnv) (px pz : ℚ) (k : Kart) :
    (hardTerrain env px pz k).speed = k.speed ∨
      (hardTerrain env px pz k).speed = k.speed * (7/10) := by
  unfold hardTerrain
  (try dsimp only)
  repeat' split
  all_goals simp

theorem hardTerrain_boost (env : PhysicsEnv) (px pz : ℚ) (k : Kart) :
    (hardTerrain env px pz k).boostSpeed = k.boostSpeed := by
  unfold hardTerrain
  (try dsimp only)
  repeat' split
  all_goals rfl

theorem hardTerrain_grounded (env : PhysicsEnv) (px pz : ℚ) (k : Kart) :
    (hardTerrain env px pz k).grounded = k.grounded := by
  unfold hardTerrain
  (try dsimp only)
  repeat' split
  all_goals rfl

theorem steepWall_speed (env : PhysicsEnv) (gn : Vec3) (k : Kart) :
    (steepWall env gn k).speed = k.speed ∨
      (steepWall env gn k).speed = k.speed * (3/10) := by
  unfold steepWall
  (try dsimp only)
  repeat' split
  all_goals simp

theorem steepWall_boost (env : PhysicsEnv) (gn : Vec3) (k : Kart) :
    (steepWall env gn k).boostSpeed = k.boostSpeed := by
  unfold steepWall
  (try dsimp only)
  repeat' split
  all_goals rfl

theorem landReproject_abs_speed (fwd : Vec3) (w : Bool) (k : Kart) :
    |(landReproject fwd w k).speed| ≤ |k.speed| := by
  unfold landReproject
  (try dsimp only)
  repeat' split
  · exact le_trans (jsSign_mul_abs_le _ _) (le_of_eq (abs_abs _))
  · rename_i h
    exact not_lt.mp h
  · exact le_refl _

theorem landReproject_speed_of_not_airborne (fwd : Vec3) (k : Kart) :
    (landReproject fwd false k).speed = k.speed := rfl

theorem landReproject_boost (fwd : Vec3) (w : Bool) (k : Kart) :
    (landReproject fwd w k).boostSpeed = k.boostSpeed := by
  unfold landReproject
  (try dsimp only)
  repeat' split
  all_goals rfl

theorem landSnap_abs_speed (groundY : ℚ) (fwd : Vec3) (k : Kart) :
    |(landSnap groundY fwd k).speed| ≤ |k.speed| := by
  unfold landSnap
  (try dsimp only)
  split
  · exact landReproject_abs_speed _ _ _
  · exact landReproject_abs_speed _ _ _

theorem landSnap_speed_of_grounded (groundY : ℚ) (fwd : Vec3) (k : Kart)
    (h : k.grounded = true) : (landSnap groundY fwd k).speed = k.speed := by
  unfold landSnap
  rw [h]
  (try dsimp only)
  split
  · exact landReproject_speed_of_not_airborne _ _
  · exact landReproject_speed_of_not_airborne _ _

theorem landSnap_boost (groundY : ℚ) (fwd : Vec3) (k : Kart) :
    (landSnap groundY fwd k).boostSpeed = k.boostSpeed := by
  unfold landSnap
  (try dsimp only)
  split
  · exact landReproject_boost _ _ _
  · exact landReproject_boost _ _ _

theorem groundResolve_abs_speed (env : PhysicsEnv) (fwd : Vec3) (st : PhysState) :
    |(groundResolve env fwd st).kart.speed| ≤ |st.kart.speed| := by
  unfold groundResolve
  (try dsimp only)
  repeat' split
  · rcases steepWall_speed env (env.track.getGroundNormal st.kart.pos.x st.kart.pos.z)
      st.kart with h | h
    · simp only [h]
      exact le_refl _
    · simp only [h]
      rw [abs_mul, show |(3/10 : ℚ)| = 3/10 from by norm_num]
      nlinarith [abs_nonneg st.kart.speed]
  · exact landSnap_abs_speed _ _ _
  · exact le_refl _

theorem groundResolve_speed_of_grounded (env : PhysicsEnv) (fwd : Vec3) (st : PhysState)
    (h : st.kart.grounded = true) :
    (groundResolve env fwd st).kart.speed = st.kart.speed ∨
      (groundResolve env fwd st).kart.speed = st.kart.speed * (3/10) := by
  unfold groundResolve
  (try dsimp only)
  repeat' split
  · rcases steepWall_speed env (env.track.getGroundNormal st.kart.pos.x st.kart.pos.z)
      st.kart with hs | hs
    · exact Or.inl hs
    · exact Or.inr hs
  · exact Or.inl (landSnap_speed_of_grounded _ _ _ h)
  · exact Or.inl rfl

theorem groundResolve_boost (env : PhysicsEnv) (fwd : Vec3) (st : PhysState) :
    (groundResolve env fwd st).kart.boostSpeed = st.kart.boostSpeed := by
  unfold groundResolve
  (try dsimp only)
  repeat' split
  · exact steepWall_boost _ _ _
  · exact landSnap_boost _ _ _
  · rfl

theorem resolveObstacle_speed (env : PhysicsEnv) (s : Stats) (k : Kart) (o : Obstacle) :
    (resolveObstacle env s k o).speed = k.speed ∨
      (resolveObstacle env s k o).speed = k.speed * (7/10) := by
  unfold resolveObstacle
  (try dsimp only)
  repeat' split
  all_goals simp

theorem resolveObstacle_boost (env : PhysicsEnv) (s : Stats) (k : Kart) (o : Obstacle) :
    (resolveObstacle env s k o).boostSpeed = k.boostSpeed := by
  unfold resolveObstacle
  (try dsimp only)
  repeat' split
  all_goals rfl

theorem resolveObstacleCollisions_abs_speed (env : PhysicsEnv) (s : Stats) (k : Kart) :
    |(resolveObstacleCollisions env s k).speed| ≤ |k.speed| := by
  unfold resolveObstacleCollisions
  induction env.obstacles generalizing k with
  | nil => exact le_refl _
  | cons o tl ih =>
    refine le_trans (ih (resolveObstacle env s k o)) ?_
    rcases resolveObstacle_speed env s k o with h | h
    · rw [h]
    · rw [h, abs_mul, show |(7/10 : ℚ)| = 7/10 from by norm_num]
      nlinarith [abs_nonneg k.speed]

theorem resolveObstacleCollisions_speed_lower (env : PhysicsEnv) (s : Stats) (k : Kart)
    (lo : ℚ) (hlo : lo ≤ 0) (h : lo ≤ k.speed) :
    lo ≤ (resolveObstacleCollisions env s k).speed := by
  unfold resolveObstacleCollisions
  induction env.obstacles generalizing k with
  | nil => exact h
  | cons o tl ih =>
    refine ih (resolveObstacle env s k o) ?_
    rcases resolveObstacle_speed env s k o with hc | hc
    · rw [hc]
      exact h
    · rw [hc]
      rcases le_or_lt 0 k.speed with hk | hk
      · nlinarith
      · nlinarith

theorem resolveObstacleCollisions_boost (env : PhysicsEnv) (s : Stats) (k : Kart) :
    (resolveObstacleCollisions env s k).boostSpeed = k.boostSpeed := by
  unfold resolveObstacleCollisions
  induction env.obstacles generalizing k with
  | nil => rfl
  | cons o tl ih =>
    rw [List.foldl_cons, ih (resolveObstacle env s k o), resolveObstacle_boost]

theorem respawn_cases (k : Kart) :
    respawn k = k ∨ ((respawn k).speed = 0 ∧ (respawn k).boostSpeed = 0) := by
  unfold respawn
  split
  · exact Or.inr ⟨rfl, rfl⟩
  · exact Or.inl rfl

/-- Mirrors of the first half of `update`: the kart after the pre-terrain
steps, with hop suppressed when no hop tap is present. -/
theorem stepsBeforeTerrain_boost_nonneg (env : PhysicsEnv) (s : Stats) (input : Input)
    (dt : ℚ) (st : PhysState)
    (hb1 : 0 ≤ s.boostSpeeds.1) (hb2 : 0 ≤ s.boostSpeeds.2.1)
    (hb3 : 0 ≤ s.boostSpeeds.2.2) (h : 0 ≤ st.kart.boostSpeed) :
    0 ≤ (stepsBeforeTerrain env s input dt st).1.boostSpeed := by
  unfold stepsBeforeTerrain
  (try dsimp only)
  rw [slopeStep_boost, slideAngleStep_boost, steering_boost]
  apply boostDecay_boost_nonneg
  apply slideCharge_boost_nonneg _ _ _ _ hb1 hb2 hb3
  rw [slideEnd_boost, slideEntry_boost, hopInit_boost]
  exact h

theorem stepsBeforeTerrain_grounded (env : PhysicsEnv) (s : Stats) (input : Input)
    (dt : ℚ) (st : PhysState)
    (hz : input.hopZTap = false) (hx : input.hopXTap = false) :
    (stepsBeforeTerrain env s input dt st).1.grounded = st.kart.grounded := by
  unfold stepsBeforeTerrain
  (try dsimp only)
  rw [slopeStep_grounded, slideAngleStep_grounded, steering_grounded, boostDecay_grounded,
    slideCharge_grounded, slideEnd_grounded, slideEntry_grounded, hopInit_no_tap _ _ _ hz hx]

theorem slideEnd_of_slideHeld (input : Input) (k : Kart)
    (h : slideHeld input k = true) : slideEnd input k = k := by
  unfold slideEnd
  rw [h]
  simp

theorem slideEnd_slideActive_false (input : Input) (k : Kart)
    (hA : k.slideActive = true) (h : slideHeld input k = false) :
    (slideEnd input k).slideActive = false := by
  unfold slideEnd
  rw [hA, h]
  simp

theorem boostDecay_slideBoosts (dt : ℚ) (k : Kart) :
    (boostDecay dt k).slideBoosts = k.slideBoosts := by
  unfold boostDecay
  repeat' split
  all_goals rfl

theorem steering_slideBoosts (s : Stats) (input : Input) (dt : ℚ) (k : Kart) :
    (steering s input dt k).slideBoosts = k.slideBoosts := by
  unfold steering
  (try dsimp only)
  repeat' split
  all_goals rfl

theorem slideAngleStep_slideBoosts (dt : ℚ) (k : Kart) :
    (slideAngleStep dt k).slideBoosts = k.slideBoosts := rfl

theorem slopeStep_slideBoosts (gn fwd : Vec3) (dt : ℚ) (k : Kart) :
    (slopeStep gn fwd dt k).slideBoosts = k.slideBoosts := by
  unfold slopeStep
  split <;> rfl

theorem accelStep_slideBoosts (s : Stats) (o : Bool) (input : Input) (dt : ℚ) (k : Kart) :
    (accelStep s o input dt k).slideBoosts = k.slideBoosts := rfl

theorem clampStep_slideBoosts (s : Stats) (o : Bool) (k : Kart) :
    (clampStep s o k).slideBoosts = k.slideBoosts := rfl

theorem accelStep_slideActive (s : Stats) (o : Bool) (input : Input) (dt : ℚ) (k : Kart) :
    (accelStep s o input dt k).slideActive = k.slideActive := rfl

theorem clampStep_slideActive (s : Stats) (o : Bool) (k : Kart) :
    (clampStep s o k).slideActive = k.slideActive := rfl

theorem composeVelocity_slideBoosts (s : Stats) (fwd : Vec3) (input : Input) (dt : ℚ)
    (k : Kart) : (composeVelocity s fwd input dt k).slideBoosts = k.slideBoosts := by
  unfold composeVelocity
  (try dsimp only)
  repeat' split
  all_goals rfl

theorem composeVelocity_slideActive (s : Stats) (fwd : Vec3) (input : Input) (dt : ℚ)
    (k : Kart) : (composeVelocity s fwd input dt k).slideActive = k.slideActive := by
  unfold composeVelocity
  (try dsimp only)
  repeat' split
  all_goals rfl

theorem integrate_slideBoosts (dt : ℚ) (k : Kart) :
    (integrate dt k).slideBoosts = k.slideBoosts := rfl

theorem integrate_slideActive (dt : ℚ) (k : Kart) :
    (integrate dt k).slideActive = k.slideActive := rfl

theorem hardTerrain_slideBoosts (env : PhysicsEnv) (px pz : ℚ) (k : Kart) :
    (hardTerrain env px pz k).slideBoosts = k.slideBoosts := by
  unfold hardTerrain
  (try dsimp only)
  repeat' split
  all_goals rfl

theorem hardTerrain_slideActive (env : PhysicsEnv) (px pz : ℚ) (k : Kart) :
    (hardTerrain env px pz k).slideActive = k.slideActive := by
  unfold hardTerrain
  (try dsimp only)
  repeat' split
  all_goals rfl

theorem steepWall_slideBoosts (env : PhysicsEnv) (gn : Vec3) (k : Kart) :
    (steepWall env gn k).slideBoosts = k.slideBoosts := by
  unfold steepWall
  (try dsimp only)
  repeat' split
  all_goals rfl

theorem steepWall_slideActive (env : PhysicsEnv) (gn : Vec3) (k : Kart) :
    (steepWall env gn k).slideActive = k.slideActive := by
  unfold steepWall
  (try dsimp only)
  repeat' split
  all_goals rfl

theorem landReproject_slideBoosts (fwd : Vec3) (w : Bool) (k : Kart) :
    (landReproject fwd w k).slideBoosts = k.slideBoosts := by
  unfold landReproject
  (try dsimp only)
  repeat' split
  all_goals rfl

theorem landReproject_slideActive (fwd : Vec3) (w : Bool) (k : Kart) :
    (landReproject fwd w k).slideActive = k.slideActive := by
  unfold landReproject
  (try dsimp only)
  repeat' split
  all_goals rfl

theorem landSnap_slideBoosts (groundY : ℚ) (fwd : Vec3) (k : Kart) :
    (landSnap groundY fwd k).slideBoosts = k.slideBoosts := by
  unfold landSnap
  (try dsimp only)
  split
  · exact landReproject_slideBoosts _ _ _
  · exact landReproject_slideBoosts _ _ _

theorem landSnap_slideActive (groundY : ℚ) (fwd : Vec3) (k : Kart) :
    (landSnap groundY fwd k).slideActive = k.slideActive := by
  unfold landSnap
  (try dsimp only)
  split
  · exact landReproject_slideActive _ _ _
  · exact landReproject_slideActive _ _ _

theorem groundResolve_slideBoosts (env : PhysicsEnv) (fwd : Vec3) (st : PhysState) :
    (groundResolve env fwd st).kart.slideBoosts = st.kart.slideBoosts := by
  unfold groundResolve
  (try dsimp only)
  repeat' split
  · exact steepWall_slideBoosts _ _ _
  · exact landSnap_slideBoosts _ _ _
  · rfl

theorem groundResolve_slideActive (env : PhysicsEnv) (fwd : Vec3) (st : PhysState) :
    (groundResolve env fwd st).kart.slideActive = st.kart.slideActive := by
  unfold groundResolve
  (try dsimp only)
  repeat' split
  · exact steepWall_slideActive _ _ _
  · exact landSnap_slideActive _ _ _
  · rfl

theorem resolveObstacle_slideBoosts (env : PhysicsEnv) (s : Stats) (k : Kart) (o : Obstacle) :
    (resolveObstacle env s k o).slideBoosts = k.slideBoosts := by
  unfold resolveObstacle
  (try dsimp only)
  repeat' split
  all_goals rfl

theorem resolveObstacle_slideActive (env : PhysicsEnv) (s : Stats) (k : Kart) (o : Obstacle) :
    (resolveObstacle env s k o).slideActive = k.slideActive := by
  unfold resolveObstacle
  (try dsimp only)
  repeat' split
  all_goals rfl

theorem resolveObstacleCollisions_slideBoosts (env : PhysicsEnv) (s : Stats) (k : Kart) :
    (resolveObstacleCollisions env s k).slideBoosts = k.slideBoosts := by
  unfold resolveObstacleCollisions
  induction env.obstacles generalizing k with
  | nil => rfl
  | cons o tl ih =>
    rw [List.foldl_cons, ih (resolveObstacle env s k o), resolveObstacle_slideBoosts]

theorem resolveObstacleCollisions_slideActive (env : PhysicsEnv) (s : Stats) (k : Kart) :
    (resolveObstacleCollisions env s k).slideActive = k.slideActive := by
  unfold resolveObstacleCollisions
  induction env.obstacles generalizing k with
  | nil => rfl
  | cons o tl ih =>
    rw [List.foldl_cons, ih (resolveObstacle env s k o), resolveObstacle_slideActive]

theorem respawn_or_slideActive_false (k : Kart) :
    respawn k = k ∨ (respawn k).slideActive = false := by
  unfold respawn
  split
  · exact Or.inr rfl
  · exact Or.inl rfl

theorem stepsBeforeTerrain_slideActive (env : PhysicsEnv) (s : Stats) (input : Input)
    (dt : ℚ) (st : PhysState) :
    (stepsBeforeTerrain env s input dt st).1.slideActive =
      (slideCharge s (triggerTapOf input st.kart) dt
        (slideEnd input (slideEntry input (hopInit s input st.kart)))).slideActive := by
  unfold stepsBeforeTerrain
  (try dsimp only)
  rw [slopeStep_slideActive, slideAngleStep_slideActive, steering_slideActive,
    boostDecay_slideActive]

theorem stepsBeforeTerrain_slideBoosts (env : PhysicsEnv) (s : Stats) (input : Input)
    (dt : ℚ) (st : PhysState) :
    (stepsBeforeTerrain env s input dt st).1.slideBoosts =
      (slideCharge s (triggerTapOf input st.kart) dt
        (slideEnd input (slideEntry input (hopInit s input st.kart)))).slideBoosts := by
  unfold stepsBeforeTerrain
  (try dsimp only)
  rw [slopeStep_slideBoosts, slideAngleStep_slideBoosts, steering_slideBoosts,
    boostDecay_slideBoosts]

/-- The end-of-tick slide fields: either the respawn wiped the slide, or
both slide fields are exactly what the hop/entry/end/charge sections
produced. -/
theorem update_slide_shape (env : PhysicsEnv) (s : Stats) (input : Input) (dt : ℚ)
    (st : PhysState) :
    (update env s input dt st).kart.slideActive = false ∨
      ((update env s input dt st).kart.slideActive =
        (slideCharge s (triggerTapOf input st.kart) dt
          (slideEnd input (slideEntry input (hopInit s input st.kart)))).slideActive ∧
       (update env s input dt st).kart.slideBoosts =
        (slideCharge s (triggerTapOf input st.kart) dt
          (slideEnd input (slideEntry input (hopInit s input st.kart)))).slideBoosts) := by
  unfold update
  (try dsimp only)
  rcases respawn_or_slideActive_false (resolveObstacleCollisions env s
    (groundResolve env (stepsBeforeTerrain env s input dt st).2
      ⟨hardTerrain env
        (composeVelocity s (stepsBeforeTerrain env s input dt st).2 input dt
          (clampStep s (tickOffroad env (stepsBeforeTerrain env s input dt st).1)
            (accelStep s (tickOffroad env (stepsBeforeTerrain env s input dt st).1) input dt
              (stepsBeforeTerrain env s input dt st).1))).pos.x
        (composeVelocity s (stepsBeforeTerrain env s input dt st).2 input dt
          (clampStep s (tickOffroad env (stepsBeforeTerrain env s input dt st).1)
            (accelStep s (tickOffroad env (stepsBeforeTerrain env s input dt st).1) input dt
              (stepsBeforeTerrain env s input dt st).1))).pos.z
        (integrate dt
          (composeVelocity s (stepsBeforeTerrain env s input dt st).2 input dt
            (clampStep s (tickOffroad env (stepsBeforeTerrain env s input dt st).1)
              (accelStep s (tickOffroad env (stepsBeforeTerrain env s input dt st).1) input dt
                (stepsBeforeTerrain env s input dt st).1)))),
       st.groundNormal⟩).kart) with h | h
  · refine Or.inr ?_
    rw [h]
    constructor
    · rw [resolveObstacleCollisions_slideActive, groundResolve_slideActive]
      show (hardTerrain _ _ _ _).slideActive = _
      rw [hardTerrain_slideActive, integrate_slideActive, composeVelocity_slideActive,
        clampStep_slideActive, accelStep_slideActive, stepsBeforeTerrain_slideActive]
    · rw [resolveObstacleCollisions_slideBoosts, groundResolve_slideBoosts]
      show (hardTerrain _ _ _ _).slideBoosts = _
      rw [hardTerrain_slideBoosts, integrate_slideBoosts, composeVelocity_slideBoosts,
        clampStep_slideBoosts, accelStep_slideBoosts, stepsBeforeTerrain_slideBoosts]
  · exact Or.inl h

theorem sweet_spot_snd_lt_one (i : ℤ) : (SWEET_SPOTS i).2 < 1 := by
  unfold SWEET_SPOTS
  repeat' split
  all_goals norm_num

/-- Characterization of the charge section for an active slide with
charge level in `[0, 3)`. -/
theorem slideCharge_char (s : Stats) (trig : Bool) (dt : ℚ) (k : Kart)
    (hA : k.slideActive = true) (h0 : 0 ≤ k.slideBoosts) (h3 : k.slideBoosts < 3) :
    (slideCharge s trig dt k).slideBoosts =
      (if trig then
        (if (SWEET_SPOTS k.slideBoosts).1 ≤ (k.slideTimer + dt) / s.slideMeterDuration ∧
            (k.slideTimer + dt) / s.slideMeterDuration ≤ (SWEET_SPOTS k.slideBoosts).2 then
          k.slideBoosts + 1
        else -1)
       else if (k.slideTimer + dt) / s.slideMeterDuration > 1 then -1
       else k.slideBoosts) := by
  unfold slideCharge
  rw [hA]
  rw [if_pos (show (true && decide (0 ≤ k.slideBoosts) && decide (k.slideBoosts < 3)) = true
    from by simp [h0, h3])]
  (try dsimp only)
  split_ifs with h1 h2 hov
  all_goals try rfl
  exfalso
  have hw : (SWEET_SPOTS k.slideBoosts).1 ≤ (k.slideTimer + dt) / s.slideMeterDuration ∧
      (k.slideTimer + dt) / s.slideMeterDuration ≤ (SWEET_SPOTS k.slideBoosts).2 := by
    assumption
  have hov2 : (k.slideTimer + dt) / s.slideMeterDuration > 1 := by assumption
  linarith [sweet_spot_snd_lt_one k.slideBoosts, hw.2, hov2]

theorem mul_frac_lower (lo v c : ℚ) (hlo : lo ≤ 0) (h : lo ≤ v)
    (hc0 : 0 ≤ c) (hc1 : c ≤ 1) : lo ≤ v * c := by
  rcases le_or_lt 0 v with hv | hv
  · nlinarith
  · nlinarith

theorem hopInit_slideActive (s : Stats) (input : Input) (k : Kart) :
    (hopInit s input k).slideActive = k.slideActive := by
  unfold hopInit
  split <;> rfl

theorem slideEnd_slideActive_of_not_held (input : Input) (k : Kart)
    (h : slideHeld input k = false) :
    (slideEnd input k).slideActive = false ∨ (slideEnd input k).slideActive = k.slideActive := by
  unfold slideEnd
  split
  · exact Or.inl rfl
  · exact Or.inr rfl

/-- Bounds on the post-clamp half of `update` (velocity composition,
integration, hard terrain, ground resolution, obstacles, respawn): the
speed magnitude never grows past `m + boost`, and without an
airborne-to-grounded transition the `-0.4 m` floor also survives. -/
theorem pipeline_bounds (env : PhysicsEnv) (s : Stats) (input : Input) (dt : ℚ)
    (gn0 fwd : Vec3) (K2 K3 K4 K5 : Kart) (ST1 : PhysState) (K6 K7 : Kart) (m : ℚ)
    (hm : 0 ≤ m) (hb : 0 ≤ K2.boostSpeed)
    (hlo : -m * (2/5) ≤ K2.speed) (hhi : K2.speed ≤ m + K2.boostSpeed)
    (e3 : K3 = composeVelocity s fwd input dt K2)
    (e4 : K4 = integrate dt K3)
    (e5 : K5 = hardTerrain env K3.pos.x K3.pos.z K4)
    (e6 : ST1 = groundResolve env fwd ⟨K5, gn0⟩)
    (e7 : K6 = resolveObstacleCollisions env s ST1.kart)
    (e8 : K7 = respawn K6) :
    (|K7.speed| ≤ m + K7.boostSpeed) ∧
      (K2.grounded = true → -m * (2/5) ≤ K7.speed) := by
  have h4sp : K4.speed = K2.speed := by
    rw [e4, integrate_speed, e3, composeVelocity_speed]
  have h4b : K4.boostSpeed = K2.boostSpeed := by
    rw [e4, integrate_boost, e3, composeVelocity_boost]
  have h4g : K4.grounded = K2.grounded := by
    rw [e4, integrate_grounded, e3, composeVelocity_grounded]
  have habs2 : |K2.speed| ≤ m + K2.boostSpeed := by
    rw [abs_le]
    constructor
    · nlinarith
    · exact hhi
  have habs5 : |K5.speed| ≤ m + K2.boostSpeed := by
    rcases hardTerrain_speed env K3.pos.x K3.pos.z K4 with h | h
    · rw [e5, h, h4sp]
      exact habs2
    · rw [e5, h, h4sp, abs_mul, show |(7/10 : ℚ)| = 7/10 from by norm_num]
      nlinarith [abs_nonneg K2.speed]
  have h5b : K5.boostSpeed = K2.boostSpeed := by
    rw [e5, hardTerrain_boost, h4b]
  have h5g : K5.grounded = K2.grounded := by
    rw [e5, hardTerrain_grounded, h4g]
  have habs6 : |K6.speed| ≤ m + K2.boostSpeed := by
    rw [e7]
    refine le_trans (resolveObstacleCollisions_abs_speed env s ST1.kart) ?_
    refine le_trans ?_ habs5
    rw [e6]
    exact groundResolve_abs_speed env fwd ⟨K5, gn0⟩
  have h6b : K6.boostSpeed = K2.boostSpeed := by
    rw [e7, resolveObstacleCollisions_boost, e6, groundResolve_boost]
    exact h5b
  have hlo0 : -m * (2/5) ≤ 0 := by nlinarith
  constructor
  · rcases respawn_cases K6 with h | h
    · rw [e8, h, h6b]
      exact habs6
    · rw [e8]
      rw [h.1, h.2]
      simpa using hm
  · intro hg
    have hlo5 : -m * (2/5) ≤ K5.speed := by
      rcases hardTerrain_speed env K3.pos.x K3.pos.z K4 with h | h
      · rw [e5, h, h4sp]
        exact hlo
      · rw [e5, h, h4sp]
        exact mul_frac_lower _ _ _ hlo0 hlo (by norm_num) (by norm_num)
    have hlo6 : -m * (2/5) ≤ K6.speed := by
      rw [e7]
      apply resolveObstacleCollisions_speed_lower env s ST1.kart _ hlo0
      rcases groundResolve_speed_of_grounded env fwd ⟨K5, gn0⟩ (by simpa [h5g] using hg)
        with h | h
      · rw [e6, h]
        exact hlo5
      · rw [e6, h]
        exact mul_frac_lower _ _ _ hlo0 hlo5 (by norm_num) (by norm_num)
    rcases respawn_cases K6 with h | h
    · rw [e8, h]
      exact hlo6
    · rw [e8, h.1]
      exact hlo0

end KartPhysics

/-- Concrete evaluation of the landing-reprojection run (the kernel
cannot reduce `Nat.gcd`-normalized rational arithmetic, so concrete runs
are evaluated by `norm_num` over the unfolded step functions). -/
theorem landingRun_eval :
    (KartPhysics.update cEnv KART_DEFAULTS idleInput (1/60)
        ⟨landingKart, ⟨0, 1, 0⟩⟩).kart.speed = -448/15 ∧
      (KartPhysics.update cEnv KART_DEFAULTS idleInput (1/60)
        ⟨landingKart, ⟨0, 1, 0⟩⟩).kart.boostSpeed = 0 ∧
      KartPhysics.updateOffroad cEnv KART_DEFAULTS idleInput (1/60)
        ⟨landingKart, ⟨0, 1, 0⟩⟩ = false := by
  norm_num [KartPhysics.update, KartPhysics.updateOffroad, KartPhysics.stepsBeforeTerrain,
    KartPhysics.hopInit, KartPhysics.slideEntry, KartPhysics.slideEnd,
    KartPhysics.slideCharge, KartPhysics.boostDecay, KartPhysics.steering,
    KartPhysics.slideAngleStep, KartPhysics.forwardOf, KartPhysics.slopeStep,
    KartPhysics.tickOffroad, KartPhysics.accelStep, KartPhysics.clampStep,
    KartPhysics.composeVelocity, KartPhysics.integrate, KartPhysics.hardTerrain,
    KartPhysics.groundResolve, KartPhysics.steepWall, KartPhysics.landSnap,
    KartPhysics.landReproject, KartPhysics.resolveObstacleCollisions,
    KartPhysics.resolveObstacle, KartPhysics.respawn, KartPhysics.triggerTapOf,
    KartPhysics.slideHeld, cEnv, flatTrack, zeroTrig, landingKart, idleInput,
    KART_DEFAULTS, jsSign, clampQ, GRAVITY, GROUND_SNAP, SLOPE_SPEED_FACTOR,
    MAX_DRIVEABLE_SLOPE, SWEET_SPOTS, idx3, abs_of_nonneg, abs_of_nonpos]

/-- Concrete evaluation of the sweet-spot slide run: the slide stays
active through the tick. -/
theorem slideRun_active :
    (KartPhysics.update cEnv KART_DEFAULTS slideTapInput (1/60)
        (PhysState.mk slidingKart ⟨0, 1, 0⟩)).kart.slideActive = true := by
  norm_num [KartPhysics.update, KartPhysics.stepsBeforeTerrain,
    KartPhysics.hopInit, KartPhysics.slideEntry, KartPhysics.slideEnd,
    KartPhysics.slideCharge, KartPhysics.boostDecay, KartPhysics.steering,
    KartPhysics.slideAngleStep, KartPhysics.forwardOf, KartPhysics.slopeStep,
    KartPhysics.tickOffroad, KartPhysics.accelStep, KartPhysics.clampStep,
    KartPhysics.composeVelocity, KartPhysics.integrate, KartPhysics.hardTerrain,
    KartPhysics.groundResolve, KartPhysics.steepWall, KartPhysics.landSnap,
    KartPhysics.landReproject, KartPhysics.resolveObstacleCollisions,
    KartPhysics.resolveObstacle, KartPhysics.respawn, KartPhysics.triggerTapOf,
    KartPhysics.slideHeld, cEnv, flatTrack, zeroTrig, slidingKart, slideTapInput,
    KART_DEFAULTS, jsSign, clampQ, GRAVITY, GROUND_SNAP, SLOPE_SPEED_FACTOR,
    MAX_DRIVEABLE_SLOPE, SWEET_SPOTS, idx3, abs_of_nonneg, abs_of_nonpos]

/-! ### Claim C1 — speed clamp -/

/-- C1 (amended): at the end of every `KartPhysics.update` tick the speed
magnitude is at most the tick's effective top speed (base top speed times
the offroad multiplier of the tick's terrain sample) plus the end-of-tick
boost magnitude; and the claimed lower bound `-0.4 × top` additionally
holds whenever the tick performs no airborne-to-grounded landing
reprojection — in particular whenever the kart starts the tick grounded
and no hop button is tapped.  (The original claim's lower bound fails
exactly at the landing reprojection; see the counterexample.) -/
theorem C1_speed_clamp_amended (env : PhysicsEnv) (s : Stats) (input : Input) (dt : ℚ)
    (st : PhysState) (hms : 0 ≤ s.maxSpeed) (hb1 : 0 ≤ s.boostSpeeds.1)
    (hb2 : 0 ≤ s.boostSpeeds.2.1) (hb3 : 0 ≤ s.boostSpeeds.2.2)
    (hb0 : 0 ≤ st.kart.boostSpeed) :
    |(KartPhysics.update env s input dt st).kart.speed| ≤
        s.maxSpeed * (if KartPhysics.updateOffroad env s input dt st then 3/5 else 1) +
          (KartPhysics.update env s input dt st).kart.boostSpeed ∧
      (st.kart.grounded = true → input.hopZTap = false → input.hopXTap = false →
        -(s.maxSpeed * (if KartPhysics.updateOffroad env s input dt st then 3/5 else 1)) *
            (2/5) ≤
          (KartPhysics.update env s input dt st).kart.speed) := by
  have hb0' := KartPhysics.stepsBeforeTerrain_boost_nonneg env s input dt st hb1 hb2 hb3 hb0
  have hclamp := KartPhysics.clampStep_bounds s
    (KartPhysics.tickOffroad env (KartPhysics.stepsBeforeTerrain env s input dt st).1)
    (KartPhysics.accelStep s
      (KartPhysics.tickOffroad env (KartPhysics.stepsBeforeTerrain env s input dt st).1)
      input dt (KartPhysics.stepsBeforeTerrain env s input dt st).1) hms hb0'
  have hm : (0 : ℚ) ≤ s.maxSpeed *
      (if KartPhysics.tickOffroad env (KartPhysics.stepsBeforeTerrain env s input dt st).1
       then 3/5 else 1) := by
    split <;> nlinarith
  have hP := KartPhysics.pipeline_bounds env s input dt st.groundNormal
    (KartPhysics.stepsBeforeTerrain env s input dt st).2
    (KartPhysics.clampStep s
      (KartPhysics.tickOffroad env (KartPhysics.stepsBeforeTerrain env s input dt st).1)
      (KartPhysics.accelStep s
        (KartPhysics.tickOffroad env (KartPhysics.stepsBeforeTerrain env s input dt st).1)
        input dt (KartPhysics.stepsBeforeTerrain env s input dt st).1))
    _ _ _ _ _ _
    (s.maxSpeed *
      (if KartPhysics.tickOffroad env (KartPhysics.stepsBeforeTerrain env s input dt st).1
       then 3/5 else 1))
    hm hb0' hclamp.1 hclamp.2 rfl rfl rfl rfl rfl rfl
  constructor
  · exact hP.1
  · intro hg hz hx
    refine hP.2 ?_
    rw [KartPhysics.clampStep_grounded, KartPhysics.accelStep_grounded,
      KartPhysics.stepsBeforeTerrain_grounded env s input dt st hz hx]
    exact hg

/-- C1 counterexample: a kart flying at speed 30 in world `+z` while
facing `-z` (`landingKart`), with neutral input on flat on-road terrain,
lands this tick; the landing reprojection gives it speed `-448/15 ≈
-29.87`, far below the claimed floor `-0.4 × 35 = -14` (boost is 0, the
tick's terrain sample is on-road), so the claimed end-of-tick interval
`[-0.4 × top, top + boost]` is violated.  The run evaluates sine and
cosine only at angle 0 and reaches no square-root call, so it agrees
exactly with the JavaScript source. -/
theorem C1_speed_clamp_counterexample :
    (KartPhysics.update cEnv KART_DEFAULTS idleInput (1/60)
        ⟨landingKart, ⟨0, 1, 0⟩⟩).kart.speed = -448/15 ∧
      (KartPhysics.update cEnv KART_DEFAULTS idleInput (1/60)
        ⟨landingKart, ⟨0, 1, 0⟩⟩).kart.boostSpeed = 0 ∧
      KartPhysics.updateOffroad cEnv KART_DEFAULTS idleInput (1/60)
        ⟨landingKart, ⟨0, 1, 0⟩⟩ = false ∧
      ¬(-(KART_DEFAULTS.maxSpeed * 1) * (2/5) ≤
        (KartPhysics.update cEnv KART_DEFAULTS idleInput (1/60)
          ⟨landingKart, ⟨0, 1, 0⟩⟩).kart.speed) := by
  refine ⟨landingRun_eval.1, landingRun_eval.2.1, landingRun_eval.2.2, ?_⟩
  rw [landingRun_eval.1]
  norm_num [KART_DEFAULTS]

/-- C1 witness: the amended clamp theorem applied to a grounded kart with
neutral input on flat terrain, all hypotheses discharged concretely. -/
theorem C1_speed_clamp_witness :
    ((0 : ℚ) ≤ KART_DEFAULTS.maxSpeed ∧ (0 : ℚ) ≤ KART_DEFAULTS.boostSpeeds.1 ∧
      (0 : ℚ) ≤ KART_DEFAULTS.boostSpeeds.2.1 ∧ (0 : ℚ) ≤ KART_DEFAULTS.boostSpeeds.2.2 ∧
      (0 : ℚ) ≤ (PhysState.mk groundedKart ⟨0, 1, 0⟩).kart.boostSpeed) ∧
    (|(KartPhysics.update cEnv KART_DEFAULTS idleInput (1/60)
          (PhysState.mk groundedKart ⟨0, 1, 0⟩)).kart.speed| ≤
        KART_DEFAULTS.maxSpeed *
          (if KartPhysics.updateOffroad cEnv KART_DEFAULTS idleInput (1/60)
              (PhysState.mk groundedKart ⟨0, 1, 0⟩) then 3/5 else 1) +
          (KartPhysics.update cEnv KART_DEFAULTS idleInput (1/60)
            (PhysState.mk groundedKart ⟨0, 1, 0⟩)).kart.boostSpeed ∧
      ((PhysState.mk groundedKart ⟨0, 1, 0⟩).kart.grounded = true →
        idleInput.hopZTap = false → idleInput.hopXTap = false →
        -(KART_DEFAULTS.maxSpeed *
            (if KartPhysics.updateOffroad cEnv KART_DEFAULTS idleInput (1/60)
                (PhysState.mk groundedKart ⟨0, 1, 0⟩) then 3/5 else 1)) * (2/5) ≤
          (KartPhysics.update cEnv KART_DEFAULTS idleInput (1/60)
            (PhysState.mk groundedKart ⟨0, 1, 0⟩)).kart.speed)) :=
  ⟨⟨by decide, by decide, by decide, by decide, by decide⟩,
    C1_speed_clamp_amended cEnv KART_DEFAULTS idleInput (1/60)
      (PhysState.mk groundedKart ⟨0, 1, 0⟩)
      (by decide) (by decide) (by decide) (by decide) (by decide)⟩

/-! ### Claim C3 — slide charge monotonicity -/

/-- C3: within one power-slide (active before and after the tick), the
charge count is `-1`-absorbing; at charge level `0 ≤ c < 3` it becomes
`c + 1` exactly when the *other* hop button is tapped with the meter
fraction inside the level's sweet-spot window, `-1` on a tap outside the
window or on meter overflow (`fraction > 1`), and stays unchanged
otherwise; and at level 3 it stays 3. -/
theorem C3_slide_charge (env : PhysicsEnv) (s : Stats) (input : Input) (dt : ℚ)
    (st : PhysState) (hA : st.kart.slideActive = true)
    (hA' : (KartPhysics.update env s input dt st).kart.slideActive = true) :
    (st.kart.slideBoosts = -1 →
      (KartPhysics.update env s input dt st).kart.slideBoosts = -1) ∧
    (0 ≤ st.kart.slideBoosts → st.kart.slideBoosts < 3 →
      (KartPhysics.update env s input dt st).kart.slideBoosts =
        (if KartPhysics.triggerTapOf input st.kart then
          (if (SWEET_SPOTS st.kart.slideBoosts).1 ≤
                (st.kart.slideTimer + dt) / s.slideMeterDuration ∧
              (st.kart.slideTimer + dt) / s.slideMeterDuration ≤
                (SWEET_SPOTS st.kart.slideBoosts).2 then
            st.kart.slideBoosts + 1
          else -1)
         else if (st.kart.slideTimer + dt) / s.slideMeterDuration > 1 then -1
         else st.kart.slideBoosts)) ∧
    (st.kart.slideBoosts = 3 →
      (KartPhysics.update env s input dt st).kart.slideBoosts = 3) := by
  have hopId : KartPhysics.hopInit s input st.kart = st.kart :=
    KartPhysics.hopInit_of_slideActive _ _ _ hA
  have hsh : KartPhysics.slideHeld input st.kart = true := by
    cases hcase : KartPhysics.slideHeld input st.kart
    · exfalso
      have hLfalse : (KartPhysics.slideEnd input (KartPhysics.slideEntry input
          (KartPhysics.hopInit s input st.kart))).slideActive = false := by
        rw [hopId, KartPhysics.slideEntry_of_slideActive _ _ hA]
        exact KartPhysics.slideEnd_slideActive_false _ _ hA hcase
      rcases KartPhysics.update_slide_shape env s input dt st with h | h
      · rw [h] at hA'
        exact Bool.false_ne_true hA'
      · rw [h.1, KartPhysics.slideCharge_slideActive, hLfalse] at hA'
        exact Bool.false_ne_true hA'
    · rfl
  have hLid : KartPhysics.slideEnd input (KartPhysics.slideEntry input
      (KartPhysics.hopInit s input st.kart)) = st.kart := by
    rw [hopId, KartPhysics.slideEntry_of_slideActive _ _ hA,
      KartPhysics.slideEnd_of_slideHeld _ _ hsh]
  have hupd : (KartPhysics.update env s input dt st).kart.slideBoosts =
      (KartPhysics.slideCharge s (KartPhysics.triggerTapOf input st.kart) dt
        st.kart).slideBoosts := by
    rcases KartPhysics.update_slide_shape env s input dt st with h | h
    · rw [h] at hA'
      exact absurd hA' Bool.false_ne_true
    · rw [h.2, hLid]
  refine ⟨?_, ?_, ?_⟩
  · intro hm1
    rw [hupd]
    unfold KartPhysics.slideCharge
    rw [if_neg (by simp [hm1])]
    exact hm1
  · intro h0 h3
    rw [hupd, KartPhysics.slideCharge_char s _ dt st.kart hA h0 h3]
  · intro h3
    rw [hupd]
    unfold KartPhysics.slideCharge
    rw [if_neg (by simp [h3])]
    exact h3

/-- C3 witness: one second into a slide on the `z` button at charge 0,
the `x` tap lands at meter fraction `61/90 ∈ [0.55, 0.85]`, so the charge
advances to 1. -/
theorem C3_slide_charge_witness :
    (slidingKart.slideActive = true ∧
      (KartPhysics.update cEnv KART_DEFAULTS slideTapInput (1/60)
        (PhysState.mk slidingKart ⟨0, 1, 0⟩)).kart.slideActive = true) ∧
    (KartPhysics.update cEnv KART_DEFAULTS slideTapInput (1/60)
        (PhysState.mk slidingKart ⟨0, 1, 0⟩)).kart.slideBoosts = 1 := by
  have hA : (PhysState.mk slidingKart ⟨0, 1, 0⟩).kart.slideActive = true := rfl
  have hA' : (KartPhysics.update cEnv KART_DEFAULTS slideTapInput (1/60)
      (PhysState.mk slidingKart ⟨0, 1, 0⟩)).kart.slideActive = true := slideRun_active
  refine ⟨⟨hA, hA'⟩, ?_⟩
  have h := (C3_slide_charge cEnv KART_DEFAULTS slideTapInput (1/60)
    (PhysState.mk slidingKart ⟨0, 1, 0⟩) hA hA').2.1 (by decide) (by decide)
  rw [h]
  norm_num [KartPhysics.triggerTapOf, slidingKart, slideTapInput, SWEET_SPOTS, KART_DEFAULTS]

/-! ### Claim C10 — pairwise collision conservation -/

/-- C10: for a two-kart list whose horizontal center distance `d`
satisfies `0.01 < d < 3` (i.e. `1/10000 < d² < 9`, the source's guard),
`resolveKartCollisions` reduces to the single pair resolution, and that
resolution preserves the componentwise sum of the two velocity vectors in
`x` and `z` (hence also the midpoint of the two positions, whose
coordinate sums are preserved), leaves both vertical velocities and both
`pos.y` untouched, and multiplies both scalar speeds by the `0.85`
slowdown factor — for every square-root implementation. -/
theorem C10_two_kart_collision (sqrtFn : ℚ → ℚ) (a b : Kart)
    (hgt : (b.pos.x - a.pos.x) * (b.pos.x - a.pos.x) +
        (b.pos.z - a.pos.z) * (b.pos.z - a.pos.z) > 1/10000)
    (hlt : (b.pos.x - a.pos.x) * (b.pos.x - a.pos.x) +
        (b.pos.z - a.pos.z) * (b.pos.z - a.pos.z) < 9) :
    KartCollision.resolveKartCollisions sqrtFn [a, b] =
        [(KartCollision.collidePair sqrtFn a b).1, (KartCollision.collidePair sqrtFn a b).2] ∧
      (KartCollision.collidePair sqrtFn a b).1.vel.x +
          (KartCollision.collidePair sqrtFn a b).2.vel.x = a.vel.x + b.vel.x ∧
      (KartCollision.collidePair sqrtFn a b).1.vel.z +
          (KartCollision.collidePair sqrtFn a b).2.vel.z = a.vel.z + b.vel.z ∧
      (KartCollision.collidePair sqrtFn a b).1.vel.y = a.vel.y ∧
      (KartCollision.collidePair sqrtFn a b).2.vel.y = b.vel.y ∧
      (KartCollision.collidePair sqrtFn a b).1.pos.x +
          (KartCollision.collidePair sqrtFn a b).2.pos.x = a.pos.x + b.pos.x ∧
      (KartCollision.collidePair sqrtFn a b).1.pos.z +
          (KartCollision.collidePair sqrtFn a b).2.pos.z = a.pos.z + b.pos.z ∧
      (KartCollision.collidePair sqrtFn a b).1.pos.y = a.pos.y ∧
      (KartCollision.collidePair sqrtFn a b).2.pos.y = b.pos.y ∧
      (KartCollision.collidePair sqrtFn a b).1.speed = a.speed * (17/20) ∧
      (KartCollision.collidePair sqrtFn a b).2.speed = b.speed * (17/20) := by
  have hcond : (b.pos.x - a.pos.x) * (b.pos.x - a.pos.x) +
        (b.pos.z - a.pos.z) * (b.pos.z - a.pos.z) <
        KartCollision.KART_RADIUS * 2 * (KartCollision.KART_RADIUS * 2) ∧
      (b.pos.x - a.pos.x) * (b.pos.x - a.pos.x) +
        (b.pos.z - a.pos.z) * (b.pos.z - a.pos.z) > 1/10000 := by
    constructor
    · have h9 : KartCollision.KART_RADIUS * 2 * (KartCollision.KART_RADIUS * 2) = (9 : ℚ) := by
        norm_num [KartCollision.KART_RADIUS]
      rw [h9]
      exact hlt
    · exact hgt
  refine ⟨rfl, ?_⟩
  unfold KartCollision.collidePair
  (try dsimp only)
  rw [if_pos hcond]
  (try dsimp only)
  split
  all_goals refine ⟨?_, ?_, ?_, ?_, ?_, ?_, ?_, ?_, ?_, ?_⟩
  all_goals first
    | rfl
    | ring

/-- C10 witness: the conservation theorem applied to two concrete karts
two units apart (`d² = 4`), with the exact square root of 4 supplied. -/
theorem C10_two_kart_collision_witness :
    ((kartB.pos.x - kartA.pos.x) * (kartB.pos.x - kartA.pos.x) +
        (kartB.pos.z - kartA.pos.z) * (kartB.pos.z - kartA.pos.z) > 1/10000 ∧
      (kartB.pos.x - kartA.pos.x) * (kartB.pos.x - kartA.pos.x) +
        (kartB.pos.z - kartA.pos.z) * (kartB.pos.z - kartA.pos.z) < 9) ∧
    (KartCollision.resolveKartCollisions (fun _ => 2) [kartA, kartB] =
        [(KartCollision.collidePair (fun _ => 2) kartA kartB).1,
         (KartCollision.collidePair (fun _ => 2) kartA kartB).2] ∧
      (KartCollision.collidePair (fun _ => 2) kartA kartB).1.vel.x +
          (KartCollision.collidePair (fun _ => 2) kartA kartB).2.vel.x =
        kartA.vel.x + kartB.vel.x ∧
      (KartCollision.collidePair (fun _ => 2) kartA kartB).1.vel.z +
          (KartCollision.collidePair (fun _ => 2) kartA kartB).2.vel.z =
        kartA.vel.z + kartB.vel.z ∧
      (KartCollision.collidePair (fun _ => 2) kartA kartB).1.vel.y = kartA.vel.y ∧
      (KartCollision.collidePair (fun _ => 2) kartA kartB).2.vel.y = kartB.vel.y ∧
      (KartCollision.collidePair (fun _ => 2) kartA kartB).1.pos.x +
          (KartCollision.collidePair (fun _ => 2) kartA kartB).2.pos.x =
        kartA.pos.x + kartB.pos.x ∧
      (KartCollision.collidePair (fun _ => 2) kartA kartB).1.pos.z +
          (KartCollision.collidePair (fun _ => 2) kartA kartB).2.pos.z =
        kartA.pos.z + kartB.pos.z ∧
      (KartCollision.collidePair (fun _ => 2) kartA kartB).1.pos.y = kartA.pos.y ∧
      (KartCollision.collidePair (fun _ => 2) kartA kartB).2.pos.y = kartB.pos.y ∧
      (KartCollision.collidePair (fun _ => 2) kartA kartB).1.speed = kartA.speed * (17/20) ∧
      (KartCollision.collidePair (fun _ => 2) kartA kartB).2.speed = kartB.speed * (17/20)) :=
  ⟨⟨by norm_num [kartA, kartB, landingKart], by norm_num [kartA, kartB, landingKart]⟩,
    C10_two_kart_collision (fun _ => 2) kartA kartB
      (by norm_num [kartA, kartB, landingKart]) (by norm_num [kartA, kartB, landingKart])⟩

/-! ### Claim C7 — client reconciliation -/

/-- C7: in `Prediction.onServerState` the kart position is never touched
(below the threshold the prediction is accepted; at or above it no snap
happens — instead the correction offset is set to exactly the residual
error); the non-positional fields (held item, boost state) are always
overwritten from the snapshot; applying the same snapshot twice in a row
is idempotent (no additional drift on the second application); and the
offset blend of `applyLocal` preserves `position + offset` componentwise,
so blending only redistributes the already-recorded correction.  The
square-root hypothesis states that `sq` is exact at the one point this
run evaluates it, so `d² < 9` is precisely "horizontal distance below the
3.0 threshold". -/
theorem C7_reconciliation (sq : ℚ → ℚ) (kart : Prediction.CKart)
    (p : Prediction.PredState) (server : Prediction.ServerKartState)
    (hsq : sq ((server.x - kart.pos.x) * (server.x - kart.pos.x) +
          (server.z - kart.pos.z) * (server.z - kart.pos.z)) *
        sq ((server.x - kart.pos.x) * (server.x - kart.pos.x) +
          (server.z - kart.pos.z) * (server.z - kart.pos.z)) =
        (server.x - kart.pos.x) * (server.x - kart.pos.x) +
          (server.z - kart.pos.z) * (server.z - kart.pos.z) ∧
      0 ≤ sq ((server.x - kart.pos.x) * (server.x - kart.pos.x) +
          (server.z - kart.pos.z) * (server.z - kart.pos.z))) :
    (Prediction.onServerState sq kart p server).1.pos = kart.pos ∧
    (Prediction.onServerState sq kart p server).1.heldItem = server.heldItem ∧
    (Prediction.onServerState sq kart p server).1.boostSpeed = server.boostSpeed ∧
    (Prediction.onServerState sq kart p server).1.boostTimer = server.boostTimer ∧
    ((server.x - kart.pos.x) * (server.x - kart.pos.x) +
        (server.z - kart.pos.z) * (server.z - kart.pos.z) < 9 →
      (Prediction.onServerState sq kart p server).2 = p) ∧
    (9 ≤ (server.x - kart.pos.x) * (server.x - kart.pos.x) +
        (server.z - kart.pos.z) * (server.z - kart.pos.z) →
      (Prediction.onServerState sq kart p server).2.offset =
        ⟨server.x - kart.pos.x, server.y - kart.pos.y, server.z - kart.pos.z⟩) ∧
    (Prediction.onServerState sq (Prediction.onServerState sq kart p server).1
        (Prediction.onServerState sq kart p server).2 server =
      Prediction.onServerState sq kart p server) ∧
    (∀ pos : Vec3, ∀ q : Prediction.PredState, ∀ dt : ℚ,
      (Prediction.blendCorrection sq pos q dt).1.x +
          (Prediction.blendCorrection sq pos q dt).2.offset.x = pos.x + q.offset.x ∧
        (Prediction.blendCorrection sq pos q dt).1.y +
          (Prediction.blendCorrection sq pos q dt).2.offset.y = pos.y + q.offset.y ∧
        (Prediction.blendCorrection sq pos q dt).1.z +
          (Prediction.blendCorrection sq pos q dt).2.offset.z = pos.z + q.offset.z) := by
  refine ⟨?_, ?_, ?_, ?_, ?_, ?_, ?_, ?_⟩
  · unfold Prediction.onServerState
    (try dsimp only)
    split <;> rfl
  · unfold Prediction.onServerState
    (try dsimp only)
    split <;> rfl
  · unfold Prediction.onServerState
    (try dsimp only)
    split <;> rfl
  · unfold Prediction.onServerState
    (try dsimp only)
    split <;> rfl
  · intro hlt
    unfold Prediction.onServerState
    (try dsimp only)
    split
    · rfl
    · rename_i hnot
      exfalso
      rw [Prediction.SNAP_THRESHOLD] at hnot
      nlinarith [hsq.1, hsq.2]
  · intro hge
    unfold Prediction.onServerState
    (try dsimp only)
    split
    · rename_i hd
      exfalso
      rw [Prediction.SNAP_THRESHOLD] at hd
      nlinarith [hsq.1, hsq.2]
    · rfl
  · unfold Prediction.onServerState
    (try dsimp only)
    split <;> rfl
  · intro pos q dt
    unfold Prediction.blendCorrection
    (try dsimp only)
    split_ifs with h1 h2
    · refine ⟨?_, ?_, ?_⟩ <;> ring
    · refine ⟨?_, ?_, ?_⟩ <;> ring
    · refine ⟨?_, ?_, ?_⟩ <;> ring

/-- C7 witness: the reconciliation theorem applied to a concrete kart and
snapshot 5 units apart, with the exact square root of 25 supplied. -/
theorem C7_reconciliation_witness :
    ((fun _ : ℚ => (5 : ℚ)) ((predServer.x - predKart.pos.x) * (predServer.x - predKart.pos.x) +
          (predServer.z - predKart.pos.z) * (predServer.z - predKart.pos.z)) *
        (fun _ : ℚ => (5 : ℚ)) ((predServer.x - predKart.pos.x) * (predServer.x - predKart.pos.x) +
          (predServer.z - predKart.pos.z) * (predServer.z - predKart.pos.z)) =
        (predServer.x - predKart.pos.x) * (predServer.x - predKart.pos.x) +
          (predServer.z - predKart.pos.z) * (predServer.z - predKart.pos.z) ∧
      0 ≤ (fun _ : ℚ => (5 : ℚ)) ((predServer.x - predKart.pos.x) * (predServer.x - predKart.pos.x) +
          (predServer.z - predKart.pos.z) * (predServer.z - predKart.pos.z))) ∧
    ((Prediction.onServerState (fun _ => 5) predKart predOffset0 predServer).1.pos =
        predKart.pos ∧
      (Prediction.onServerState (fun _ => 5) predKart predOffset0 predServer).1.heldItem =
        predServer.heldItem ∧
      (Prediction.onServerState (fun _ => 5) predKart predOffset0 predServer).1.boostSpeed =
        predServer.boostSpeed ∧
      (Prediction.onServerState (fun _ => 5) predKart predOffset0 predServer).1.boostTimer =
        predServer.boostTimer ∧
      ((predServer.x - predKart.pos.x) * (predServer.x - predKart.pos.x) +
          (predServer.z - predKart.pos.z) * (predServer.z - predKart.pos.z) < 9 →
        (Prediction.onServerState (fun _ => 5) predKart predOffset0 predServer).2 =
          predOffset0) ∧
      (9 ≤ (predServer.x - predKart.pos.x) * (predServer.x - predKart.pos.x) +
          (predServer.z - predKart.pos.z) * (predServer.z - predKart.pos.z) →
        (Prediction.onServerState (fun _ => 5) predKart predOffset0 predServer).2.offset =
          ⟨predServer.x - predKart.pos.x, predServer.y - predKart.pos.y,
            predServer.z - predKart.pos.z⟩) ∧
      (Prediction.onServerState (fun _ => 5)
          (Prediction.onServerState (fun _ => 5) predKart predOffset0 predServer).1
          (Prediction.onServerState (fun _ => 5) predKart predOffset0 predServer).2 predServer =
        Prediction.onServerState (fun _ => 5) predKart predOffset0 predServer) ∧
      (∀ pos : Vec3, ∀ q : Prediction.PredState, ∀ dt : ℚ,
        (Prediction.blendCorrection (fun _ => 5) pos q dt).1.x +
            (Prediction.blendCorrection (fun _ => 5) pos q dt).2.offset.x =
          pos.x + q.offset.x ∧
          (Prediction.blendCorrection (fun _ => 5) pos q dt).1.y +
            (Prediction.blendCorrection (fun _ => 5) pos q dt).2.offset.y =
          pos.y + q.offset.y ∧
          (Prediction.blendCorrection (fun _ => 5) pos q dt).1.z +
            (Prediction.blendCorrection (fun _ => 5) pos q dt).2.offset.z =
          pos.z + q.offset.z)) :=
  ⟨⟨by norm_num [predKart, predServer], by norm_num⟩,
    C7_reconciliation (fun _ => 5) predKart predOffset0 predServer
      ⟨by norm_num [predKart, predServer], by norm_num⟩⟩

/-! ### Race helper lemmas -/

namespace Race

theorem advanceCheckpoints_kx (sq : ℚ → ℚ) (cps : List Checkpoint) (r : Racer) :
    (advanceCheckpoints sq cps r).kx = r.kx := by
  unfold advanceCheckpoints
  (try dsimp only)
  split <;> rfl

theorem advanceCheckpoints_kz (sq : ℚ → ℚ) (cps : List Checkpoint) (r : Racer) :
    (advanceCheckpoints sq cps r).kz = r.kz := by
  unfold advanceCheckpoints
  (try dsimp only)
  split <;> rfl

theorem advanceCheckpoints_prevSide (sq : ℚ → ℚ) (cps : List Checkpoint) (r : Racer) :
    (advanceCheckpoints sq cps r).prevSide = r.prevSide := by
  unfold advanceCheckpoints
  (try dsimp only)
  split <;> rfl

theorem advanceCheckpoints_finished (sq : ℚ → ℚ) (cps : List Checkpoint) (r : Racer) :
    (advanceCheckpoints sq cps r).finished = r.finished := by
  unfold advanceCheckpoints
  (try dsimp only)
  split <;> rfl

theorem advanceCheckpoints_lap (sq : ℚ → ℚ) (cps : List Checkpoint) (r : Racer) :
    (advanceCheckpoints sq cps r).lap = r.lap := by
  unfold advanceCheckpoints
  (try dsimp only)
  split <;> rfl

theorem wrongWayStep_finished (sq : ℚ → ℚ) (T : Trig) (cps : List Checkpoint) (r : Racer) :
    (wrongWayStep sq T cps r).finished = r.finished := by
  unfold wrongWayStep
  (try dsimp only)
  split <;> rfl

theorem wrongWayStep_lap (sq : ℚ → ℚ) (T : Trig) (cps : List Checkpoint) (r : Racer) :
    (wrongWayStep sq T cps r).lap = r.lap := by
  unfold wrongWayStep
  (try dsimp only)
  split <;> rfl

/-- The comparator accepts `a` before `b` exactly when `a`'s rank key is
lexicographically at most `b`'s. -/
theorem cmp_le_iff (sq : ℚ → ℚ) (cps : List Checkpoint) (a b : Racer) :
    cmpRacers sq cps a b ≤ 0 ↔ keyLE (rKey sq cps a) (rKey sq cps b) := by
  unfold cmpRacers rKey keyLE
  (try dsimp only)
  by_cases hf : a.finished = b.finished
  · rw [if_neg (by simp [hf])]
    have hfk : (if a.finished then (0 : ℚ) else 1) = (if b.finished then (0 : ℚ) else 1) := by
      rw [hf]
    by_cases hl : a.lap = b.lap
    · rw [if_neg (by simp [hl])]
      by_cases hc : a.checkpointsPassed = b.checkpointsPassed
      · rw [if_neg (by simp [hc])]
        constructor
        · intro h
          exact Or.inr ⟨hfk, Or.inr ⟨by rw [hl], Or.inr ⟨by rw [hc], by linarith⟩⟩⟩
        · intro h
          rcases h with h | ⟨h1, h⟩
          · rw [hfk] at h
            exact absurd h (lt_irrefl _)
          rcases h with h | ⟨h2, h⟩
          · rw [hl] at h
            exact absurd h (lt_irrefl _)
          rcases h with h | ⟨h3, h⟩
          · rw [hc] at h
            exact absurd h (lt_irrefl _)
          · linarith
      · rw [if_pos hc]
        constructor
        · intro h
          refine Or.inr ⟨hfk, Or.inr ⟨by rw [hl], Or.inl ?_⟩⟩
          have hz : (b.checkpointsPassed - a.checkpointsPassed : ℤ) ≤ 0 := by
            exact_mod_cast h
          have hlt : b.checkpointsPassed < a.checkpointsPassed := by omega
          exact_mod_cast (by omega : -a.checkpointsPassed < -b.checkpointsPassed)
        · intro h
          rcases h with h | ⟨h1, h⟩
          · rw [hfk] at h
            exact absurd h (lt_irrefl _)
          rcases h with h | ⟨h2, h⟩
          · rw [hl] at h
            exact absurd h (lt_irrefl _)
          rcases h with h | ⟨h3, h⟩
          · have hlt : -a.checkpointsPassed < -b.checkpointsPassed := by exact_mod_cast h
            have : (b.checkpointsPassed - a.checkpointsPassed : ℤ) ≤ 0 := by omega
            exact_mod_cast this
          · exfalso
            have : (a.checkpointsPassed : ℚ) = (b.checkpointsPassed : ℚ) := by linarith
            exact hc (by exact_mod_cast this)
    · rw [if_pos hl]
      constructor
      · intro h
        refine Or.inr ⟨hfk, Or.inl ?_⟩
        have hz : (b.lap - a.lap : ℤ) ≤ 0 := by exact_mod_cast h
        exact_mod_cast (by omega : -a.lap < -b.lap)
      · intro h
        rcases h with h | ⟨h1, h⟩
        · rw [hfk] at h
          exact absurd h (lt_irrefl _)
        rcases h with h | ⟨h2, h⟩
        · have hlt : -a.lap < -b.lap := by exact_mod_cast h
          have : (b.lap - a.lap : ℤ) ≤ 0 := by omega
          exact_mod_cast this
        · exfalso
          have : (a.lap : ℚ) = (b.lap : ℚ) := by linarith
          exact hl (by exact_mod_cast this)
  · rw [if_pos hf]
    cases ha : a.finished <;> cases hb : b.finished
    · exact absurd (by rw [ha, hb]) hf
    · constructor
      · intro h
        norm_num at h
      · intro h
        rcases h with h | ⟨h1, h⟩
        · norm_num at h
        · norm_num at h1
    · constructor
      · intro _
        exact Or.inl (by norm_num)
      · intro _
        norm_num
    · exact absurd (by rw [ha, hb]) hf

theorem keyLE_total (k1 k2 : ℚ × ℚ × ℚ × ℚ) : keyLE k1 k2 ∨ keyLE k2 k1 := by
  unfold keyLE
  rcases lt_trichotomy k1.1 k2.1 with h | h | h
  · exact Or.inl (Or.inl h)
  · rcases lt_trichotomy k1.2.1 k2.2.1 with h2 | h2 | h2
    · exact Or.inl (Or.inr ⟨h, Or.inl h2⟩)
    · rcases lt_trichotomy k1.2.2.1 k2.2.2.1 with h3 | h3 | h3
      · exact Or.inl (Or.inr ⟨h, Or.inr ⟨h2, Or.inl h3⟩⟩)
      · rcases le_total k1.2.2.2 k2.2.2.2 with h4 | h4
        · exact Or.inl (Or.inr ⟨h, Or.inr ⟨h2, Or.inr ⟨h3, h4⟩⟩⟩)
        · exact Or.inr (Or.inr ⟨h.symm, Or.inr ⟨h2.symm, Or.inr ⟨h3.symm, h4⟩⟩⟩)
      · exact Or.inr (Or.inr ⟨h.symm, Or.inr ⟨h2.symm, Or.inl h3⟩⟩)
    · exact Or.inr (Or.inr ⟨h.symm, Or.inl h2⟩)
  · exact Or.inr (Or.inl h)

theorem keyLE_trans (k1 k2 k3 : ℚ × ℚ × ℚ × ℚ)
    (h12 : keyLE k1 k2) (h23 : keyLE k2 k3) : keyLE k1 k3 := by
  unfold keyLE at h12 h23 ⊢
  rcases h12 with h | ⟨e1, h12⟩
  · rcases h23 with h' | ⟨e1', _⟩
    · exact Or.inl (lt_trans h h')
    · exact Or.inl (e1' ▸ h)
  · rcases h23 with h' | ⟨e1', h23⟩
    · exact Or.inl (e1 ▸ h')
    · refine Or.inr ⟨e1.trans e1', ?_⟩
      rcases h12 with h | ⟨e2, h12⟩
      · rcases h23 with h' | ⟨e2', _⟩
        · exact Or.inl (lt_trans h h')
        · exact Or.inl (e2' ▸ h)
      · rcases h23 with h' | ⟨e2', h23⟩
        · exact Or.inl (e2 ▸ h')
        · refine Or.inr ⟨e2.trans e2', ?_⟩
          rcases h12 with h | ⟨e3, h12⟩
          · rcases h23 with h' | ⟨e3', _⟩
            · exact Or.inl (lt_trans h h')
            · exact Or.inl (e3' ▸ h)
          · rcases h23 with h' | ⟨e3', h23⟩
            · exact Or.inl (e3 ▸ h')
            · exact Or.inr ⟨e3.trans e3', le_trans h12 h23⟩

theorem keyLE_antisymm (k1 k2 : ℚ × ℚ × ℚ × ℚ)
    (h12 : keyLE k1 k2) (h21 : keyLE k2 k1) : k1 = k2 := by
  unfold keyLE at h12 h21
  rcases h12 with h | ⟨e1, h12⟩
  · rcases h21 with h' | ⟨e1', _⟩
    · exact absurd (lt_trans h h') (lt_irrefl _)
    · exact absurd (e1' ▸ h) (lt_irrefl _)
  · rcases h21 with h' | ⟨e1', h21⟩
    · exact absurd (e1 ▸ h') (lt_irrefl _)
    · rcases h12 with h | ⟨e2, h12⟩
      · rcases h21 with h' | ⟨e2', _⟩
        · exact absurd (lt_trans h h') (lt_irrefl _)
        · exact absurd (e2' ▸ h) (lt_irrefl _)
      · rcases h21 with h' | ⟨e2', h21⟩
        · exact absurd (e2 ▸ h') (lt_irrefl _)
        · rcases h12 with h | ⟨e3, h12⟩
          · rcases h21 with h' | ⟨e3', _⟩
            · exact absurd (lt_trans h h') (lt_irrefl _)
            · exact absurd (e3' ▸ h) (lt_irrefl _)
          · rcases h21 with h' | ⟨e3', h21⟩
            · exact absurd (e3 ▸ h') (lt_irrefl _)
            · have h4 : k1.2.2.2 = k2.2.2.2 := le_antisymm h12 h21
              have hk1 : k1 = (k1.1, k1.2.1, k1.2.2.1, k1.2.2.2) := rfl
              have hk2 : k2 = (k2.1, k2.2.1, k2.2.2.1, k2.2.2.2) := rfl
              rw [hk1, hk2, e1, e2, e3, h4]

/-- The sorted copy produced by `_updatePositions` is sorted by the
comparator. -/
theorem sortRacers_sorted (sq : ℚ → ℚ) (cps : List Checkpoint) (racers : List Racer) :
    List.Sorted (fun a b => cmpRacers sq cps a b ≤ 0) (sortRacers sq cps racers) := by
  unfold sortRacers
  haveI htot : IsTotal Racer (fun a b => cmpRacers sq cps a b ≤ 0) := by
    constructor
    intro a b
    rcases keyLE_total (rKey sq cps a) (rKey sq cps b) with h | h
    · exact Or.inl ((cmp_le_iff sq cps a b).mpr h)
    · exact Or.inr ((cmp_le_iff sq cps b a).mpr h)
  haveI htr : IsTrans Racer (fun a b => cmpRacers sq cps a b ≤ 0) := by
    constructor
    intro a b c hab hbc
    exact (cmp_le_iff sq cps a c).mpr
      (keyLE_trans _ _ _ ((cmp_le_iff sq cps a b).mp hab) ((cmp_le_iff sq cps b c).mp hbc))
  exact List.sorted_insertionSort _ _

/-- Two sorted permutations of each other with pairwise-distinct keys are
equal. -/
theorem eq_of_perm_sorted_keys {α β : Type} (key : α → β) (le : α → α → Prop)
    (hanti : ∀ a b, le a b → le b a → key a = key b) :
    ∀ l₁ l₂ : List α, l₁.Perm l₂ → l₁.Sorted le → l₂.Sorted le →
      (l₁.map key).Nodup → l₁ = l₂ := by
  intro l₁
  induction l₁ with
  | nil =>
    intro l₂ hp _ _ _
    exact (List.Perm.eq_nil hp.symm).symm
  | cons a t ih =>
    intro l₂ hp hs₁ hs₂ hnd
    cases l₂ with
    | nil =>
      exfalso
      have := hp.length_eq
      simp at this
    | cons b t₂ =>
      have hab : a = b := by
        by_cases he : a = b
        · exact he
        · have hbmem : b ∈ a :: t := hp.mem_iff.mpr (List.mem_cons_self b t₂)
          have hamem : a ∈ b :: t₂ := hp.mem_iff.mp (List.mem_cons_self a t)
          have hbt : b ∈ t := by
            rcases List.mem_cons.mp hbmem with h | h
            · exact absurd h.symm he
            · exact h
          have hat₂ : a ∈ t₂ := by
            rcases List.mem_cons.mp hamem with h | h
            · exact absurd h he
            · exact h
          have h1 : le a b := ((List.sorted_cons).mp hs₁).1 b hbt
          have h2 : le b a := ((List.sorted_cons).mp hs₂).1 a hat₂
          have hk : key a = key b := hanti _ _ h1 h2
          exact List.inj_on_of_nodup_map hnd (List.mem_cons_self a t) hbmem hk
      subst hab
      have hptail : t.Perm t₂ := hp.cons_inv
      have hrest := ih t₂ hptail ((List.sorted_cons).mp hs₁).2 ((List.sorted_cons).mp hs₂).2
        (by
          rw [List.map_cons] at hnd
          exact (List.nodup_cons.mp hnd).2)
      rw [hrest]

end Race

/-! ### Claim C2 — finish-line transition -/

/-- C2: in the per-racer step of `RaceManager.update` (checkpoint
advancement, then finish-line test, then wrong-way flag), an unfinished
racer transitions to `finished` exactly on a finish-line crossing with
`prevSide < 0`, `curSide ≥ 0`, lateral distance within half the line
width, checkpoints-passed-this-lap (after this tick's lookahead
advancement) at least `⌊totalCheckpoints × 0.5⌋`, and an incremented lap
count exceeding the race total — in which case the lap count is clamped
to the total.  Both directions are stated; the "only if" direction also
forces the presence of a finish line. -/
theorem C2_finish_transition (sq : ℚ → ℚ) (T : Trig) (cps : List Race.Checkpoint)
    (fl : Option Race.FinishLine) (totalLaps : ℤ) (r : Race.Racer)
    (hnf : r.finished = false) :
    ((Race.racerStep sq T cps fl totalLaps
        (Int.floor ((cps.length : ℚ) * Race.MIN_CP_FRACTION)) r).finished = true →
      ∃ flv : Race.FinishLine, fl = some flv ∧
        r.prevSide < 0 ∧
        Race.signedDist fl r.kx r.kz ≥ 0 ∧
        |(r.kx - flv.x) * (-flv.nz) + (r.kz - flv.z) * flv.nx| ≤
          Race.FINISH_LINE_WIDTH / 2 ∧
        (Race.advanceCheckpoints sq cps r).cpThisLap ≥
          Int.floor ((cps.length : ℚ) * Race.MIN_CP_FRACTION) ∧
        r.lap + 1 > totalLaps ∧
        (Race.racerStep sq T cps fl totalLaps
          (Int.floor ((cps.length : ℚ) * Race.MIN_CP_FRACTION)) r).lap = totalLaps) ∧
    (∀ flv : Race.FinishLine, fl = some flv →
      r.prevSide < 0 →
      Race.signedDist fl r.kx r.kz ≥ 0 →
      |(r.kx - flv.x) * (-flv.nz) + (r.kz - flv.z) * flv.nx| ≤
        Race.FINISH_LINE_WIDTH / 2 →
      (Race.advanceCheckpoints sq cps r).cpThisLap ≥
        Int.floor ((cps.length : ℚ) * Race.MIN_CP_FRACTION) →
      r.lap + 1 > totalLaps →
      (Race.racerStep sq T cps fl totalLaps
          (Int.floor ((cps.length : ℚ) * Race.MIN_CP_FRACTION)) r).finished = true ∧
        (Race.racerStep sq T cps fl totalLaps
          (Int.floor ((cps.length : ℚ) * Race.MIN_CP_FRACTION)) r).lap = totalLaps) := by
  have hstep : Race.racerStep sq T cps fl totalLaps
      (Int.floor ((cps.length : ℚ) * Race.MIN_CP_FRACTION)) r =
      Race.wrongWayStep sq T cps
        (Race.lineCross fl totalLaps (Int.floor ((cps.length : ℚ) * Race.MIN_CP_FRACTION))
          (Race.advanceCheckpoints sq cps r)) := by
    unfold Race.racerStep
    rw [hnf]
    simp
  rw [hstep, Race.wrongWayStep_finished, Race.wrongWayStep_lap]
  cases fl with
  | none =>
    constructor
    · intro hfin
      exfalso
      unfold Race.lineCross at hfin
      rw [Race.advanceCheckpoints_finished, hnf] at hfin
      exact Bool.false_ne_true hfin
    · intro flv hflv
      exact absurd hflv (by simp)
  | some flv =>
    unfold Race.lineCross
    (try dsimp only)
    rw [Race.advanceCheckpoints_kx, Race.advanceCheckpoints_kz,
      Race.advanceCheckpoints_prevSide]
    split_ifs with hcond hlap
    · constructor
      · intro _
        refine ⟨flv, rfl, hcond.1, hcond.2.1, ?_, hcond.2.2.1, ?_, rfl⟩
        · exact hcond.2.2.2
        · rw [Race.advanceCheckpoints_lap] at hlap
          exact hlap
      · intro flv2 hflv2 _ _ _ _ _
        exact ⟨rfl, rfl⟩
    · constructor
      · intro hfin
        rw [Race.advanceCheckpoints_finished, hnf] at hfin
        exact absurd hfin Bool.false_ne_true
      · intro flv2 hflv2 _ _ _ _ hlapgt
        exfalso
        rw [Race.advanceCheckpoints_lap] at hlap
        exact hlap hlapgt
    · constructor
      · intro hfin
        rw [Race.advanceCheckpoints_finished, hnf] at hfin
        exact absurd hfin Bool.false_ne_true
      · intro flv2 hflv2 hprev hcur hlat hcp hlapgt
        exfalso
        apply hcond
        refine ⟨hprev, ?_, hcp, ?_⟩
        · cases hflv2
          exact hcur
        · cases hflv2
          exact hlat

/-- C2 witness: a racer on its final lap crossing the finish line with
enough checkpoints passed transitions to finished with its lap clamped to
the total. -/
theorem C2_finish_transition_witness :
    crossingRacer.finished = false ∧
      ((Race.racerStep (fun q => q) zeroTrig cpsFour (some finishL) 3
          (Int.floor ((cpsFour.length : ℚ) * Race.MIN_CP_FRACTION))
          crossingRacer).finished = true ∧
        (Race.racerStep (fun q => q) zeroTrig cpsFour (some finishL) 3
          (Int.floor ((cpsFour.length : ℚ) * Race.MIN_CP_FRACTION))
          crossingRacer).lap = 3) :=
  ⟨rfl,
    (C2_finish_transition (fun q => q) zeroTrig cpsFour (some finishL) 3 crossingRacer
        rfl).2 finishL rfl
      (by norm_num [crossingRacer])
      (by norm_num [Race.signedDist, finishL, crossingRacer])
      (by norm_num [Race.FINISH_LINE_WIDTH, finishL, crossingRacer])
      (by norm_num [Race.advanceCheckpoints, Race.bestAdvance, Race.CP_LOOKAHEAD,
        Race.CP_HIT_RADIUS, Race.MIN_CP_FRACTION, cpsFour, crossingRacer,
        List.range_succ, List.foldl])
      (by norm_num [crossingRacer])⟩

/-! ### Item-box subsystem helper lemmas -/

namespace ServerItems

theorem drawItem_mem (q : ℚ) : drawItem q ∈ AVAILABLE_ITEMS := by
  unfold drawItem AVAILABLE_ITEMS
  generalize (Int.floor (q * 3)).toNat = n
  rcases n with _ | _ | _ | n <;> simp [List.getD]

/-- The grant scan, modulo *which* item each grant draws: the box result,
the kart list up to item identity, and the event list up to item identity
are the same for any two random streams, and for any two kart lists that
agree up to item identity. -/
theorem grantScan_mod (box : Box) :
    ∀ (karts1 karts2 : List SKart) (r1 r2 : List ℚ),
      karts1.map eraseItemK = karts2.map eraseItemK →
      (grantScan box r1 karts1).box = (grantScan box r2 karts2).box ∧
        (grantScan box r1 karts1).karts.map eraseItemK =
          (grantScan box r2 karts2).karts.map eraseItemK ∧
        (grantScan box r1 karts1).events.map eraseItemE =
          (grantScan box r2 karts2).events.map eraseItemE := by
  intro karts1
  induction karts1 with
  | nil =>
    intro karts2 r1 r2 h
    have hnil : karts2 = [] := by
      cases karts2 with
      | nil => rfl
      | cons _ _ => simp at h
    subst hnil
    exact ⟨rfl, rfl, rfl⟩
  | cons k1 tl1 ih =>
    intro karts2 r1 r2 h
    cases karts2 with
    | nil => simp at h
    | cons k2 tl2 =>
      rw [List.map_cons, List.map_cons] at h
      have hek : eraseItemK k1 = eraseItemK k2 := (List.cons_eq_cons.mp h).1
      have htl : tl1.map eraseItemK = tl2.map eraseItemK := (List.cons_eq_cons.mp h).2
      have hid : k1.id = k2.id := by
        have h' := congrArg SKart.id hek
        exact h'
      have hx : k1.x = k2.x := by
        have h' := congrArg SKart.x hek
        exact h'
      have hz : k1.z = k2.z := by
        have h' := congrArg SKart.z hek
        exact h'
      have hbs : k1.boostSpeed = k2.boostSpeed := by
        have h' := congrArg SKart.boostSpeed hek
        exact h'
      have hbt : k1.boostTimer = k2.boostTimer := by
        have h' := congrArg SKart.boostTimer hek
        exact h'
      have hsome : k1.heldItem.isSome = k2.heldItem.isSome := by
        have hc := congrArg (fun k => k.heldItem.isSome) hek
        simpa [eraseItemK, Option.isSome_map] using hc
      have hpe : ((k2.x - box.x) * (k2.x - box.x) +
          (k2.z - box.z) * (k2.z - box.z) < PICKUP_RADIUS * PICKUP_RADIUS) ↔
          ((k1.x - box.x) * (k1.x - box.x) +
          (k1.z - box.z) * (k1.z - box.z) < PICKUP_RADIUS * PICKUP_RADIUS) := by
        rw [hx, hz]
      unfold grantScan
      (try dsimp only)
      by_cases hh : k1.heldItem.isSome = true
      · have hh2 : k2.heldItem.isSome = true := hsome ▸ hh
        rw [if_pos hh, if_pos hh2]
        have hr := ih tl2 r1 r2 htl
        refine ⟨hr.1, ?_, hr.2.2⟩
        rw [List.map_cons, List.map_cons, hek, hr.2.1]
      · have hh2 : ¬(k2.heldItem.isSome = true) := by
          rw [← hsome]
          exact hh
        rw [if_neg hh, if_neg hh2]
        by_cases hprox : (k1.x - box.x) * (k1.x - box.x) +
            (k1.z - box.z) * (k1.z - box.z) < PICKUP_RADIUS * PICKUP_RADIUS
        · rw [if_pos hprox, if_pos (hpe.mpr hprox)]
          refine ⟨rfl, ?_, ?_⟩
          · rw [List.map_cons, List.map_cons, htl]
            have he : eraseItemK { k1 with heldItem := some (drawItem (r1.headD 0)) } =
                eraseItemK { k2 with heldItem := some (drawItem (r2.headD 0)) } := by
              unfold eraseItemK
              (try dsimp only)
              rw [hid, hx, hz, hbs, hbt]
              simp
            rw [he]
          · simp [eraseItemE, hid]
        · rw [if_neg hprox, if_neg (fun hc => hprox (hpe.mp hc))]
          have hr := ih tl2 r1 r2 htl
          refine ⟨hr.1, ?_, hr.2.2⟩
          rw [List.map_cons, List.map_cons, hek, hr.2.1]

/-- `update`, modulo which item each grant draws. -/
theorem update_mod (dt : ℚ) :
    ∀ (boxes : List Box) (karts1 karts2 : List SKart) (r1 r2 : List ℚ),
      karts1.map eraseItemK = karts2.map eraseItemK →
      (update dt karts1 r1 boxes).boxes = (update dt karts2 r2 boxes).boxes ∧
        (update dt karts1 r1 boxes).karts.map eraseItemK =
          (update dt karts2 r2 boxes).karts.map eraseItemK ∧
        (update dt karts1 r1 boxes).events.map eraseItemE =
          (update dt karts2 r2 boxes).events.map eraseItemE := by
  intro boxes
  induction boxes with
  | nil =>
    intro karts1 karts2 r1 r2 h
    exact ⟨rfl, h, rfl⟩
  | cons box rest ih =>
    intro karts1 karts2 r1 r2 h
    unfold update
    (try dsimp only)
    by_cases ht : box.respawnTimer > 0
    · rw [if_pos ht, if_pos ht]
      have hr := ih karts1 karts2 r1 r2 h
      refine ⟨?_, hr.2.1, hr.2.2⟩
      rw [hr.1]
    · rw [if_neg ht, if_neg ht]
      have hg := grantScan_mod box karts1 karts2 r1 r2 h
      have hr := ih (grantScan box r1 karts1).karts (grantScan box r2 karts2).karts
        (grantScan box r1 karts1).rng (grantScan box r2 karts2).rng hg.2.1
      refine ⟨?_, hr.2.1, ?_⟩
      · rw [hg.1, hr.1]
      · rw [List.map_append, List.map_append, hg.2.2, hr.2.2]

theorem grantScan_items_mem (box : Box) (rng : List ℚ) :
    ∀ karts, ∀ e ∈ (grantScan box rng karts).events, e.item ∈ AVAILABLE_ITEMS := by
  intro karts
  induction karts with
  | nil =>
    intro e he
    simp [grantScan] at he
  | cons k tl ih =>
    intro e he
    unfold grantScan at he
    (try dsimp only at he)
    by_cases hh : k.heldItem.isSome = true
    · rw [if_pos hh] at he
      exact ih e he
    · rw [if_neg hh] at he
      by_cases hprox : (k.x - box.x) * (k.x - box.x) +
          (k.z - box.z) * (k.z - box.z) < PICKUP_RADIUS * PICKUP_RADIUS
      · rw [if_pos hprox] at he
        simp at he
        rw [he]
        exact drawItem_mem _
      · rw [if_neg hprox] at he
        exact ih e he

theorem update_items_mem (dt : ℚ) :
    ∀ (boxes : List Box) (karts : List SKart) (rng : List ℚ),
      ∀ e ∈ (update dt karts rng boxes).events, e.item ∈ AVAILABLE_ITEMS := by
  intro boxes
  induction boxes with
  | nil =>
    intro karts rng e he
    simp [update] at he
  | cons box rest ih =>
    intro karts rng e he
    unfold update at he
    (try dsimp only at he)
    by_cases ht : box.respawnTimer > 0
    · rw [if_pos ht] at he
      exact ih karts rng e he
    · rw [if_neg ht] at he
      rcases List.mem_append.mp he with h | h
      · exact grantScan_items_mem box rng karts e h
      · exact ih _ _ e h

end ServerItems

/-! ### Claim C4 — hazard subsystem determinism -/

/-- C4 (amended): the item-pickup update is deterministic given (state,
dt) only up to the `Math.random()` draws: for any two draw streams, the
resulting boxes (respawn timers), the kart list up to the identity of the
granted items, and the event list up to item identity coincide — which
boxes trigger and which karts receive a grant are RNG-independent — and
every granted item lies in the fixed set `{boost, tnt, missile}`.  (The
boost-pad update, `ServerBoostPads.update`, consumes no randomness at all
in its embedding, so it is a function of (state, dt) by construction; the
unconditional determinism claim for the item pickup is refuted by the
counterexample.) -/
theorem C4_item_rng_amended (dt : ℚ) (boxes : List ServerItems.Box)
    (karts : List SKart) (r1 r2 : List ℚ) :
    (ServerItems.update dt karts r1 boxes).boxes =
        (ServerItems.update dt karts r2 boxes).boxes ∧
      (ServerItems.update dt karts r1 boxes).karts.map ServerItems.eraseItemK =
        (ServerItems.update dt karts r2 boxes).karts.map ServerItems.eraseItemK ∧
      (ServerItems.update dt karts r1 boxes).events.map ServerItems.eraseItemE =
        (ServerItems.update dt karts r2 boxes).events.map ServerItems.eraseItemE ∧
      (∀ e ∈ (ServerItems.update dt karts r1 boxes).events,
        e.item ∈ ServerItems.AVAILABLE_ITEMS) := by
  have h := ServerItems.update_mod dt boxes karts karts r1 r2 rfl
  exact ⟨h.1, h.2.1, h.2.2, ServerItems.update_items_mem dt boxes karts r1⟩

/-- C4 counterexample: one ready box and one itemless kart in range; with
draw `0` the grant is `boost`, with draw `5/6` it is `missile` (both
draws lie in `[0, 1)` as `Math.random()` guarantees), so two runs from
the identical state with identical dt produce different new states — the
update is not a deterministic function of (state, triggers, dt). -/
theorem C4_item_rng_counterexample :
    ((0 : ℚ) ≤ 0 ∧ (0 : ℚ) < 1 ∧ (0 : ℚ) ≤ 5/6 ∧ (5/6 : ℚ) < 1) ∧
      (ServerItems.update (1/60) [skartC] [0] [boxC]).karts.map (fun k => k.heldItem) =
        [some Item.boost] ∧
      (ServerItems.update (1/60) [skartC] [5/6] [boxC]).karts.map (fun k => k.heldItem) =
        [some Item.missile] ∧
      (ServerItems.update (1/60) [skartC] [0] [boxC]).karts ≠
        (ServerItems.update (1/60) [skartC] [5/6] [boxC]).karts := by
  have h1 : (ServerItems.update (1/60) [skartC] [0] [boxC]).karts.map
      (fun k => k.heldItem) = [some Item.boost] := by
    norm_num [ServerItems.update, ServerItems.grantScan, ServerItems.drawItem,
      ServerItems.AVAILABLE_ITEMS, ServerItems.PICKUP_RADIUS, ServerItems.RESPAWN_TIME,
      boxC, skartC] <;> decide
  have h2 : (ServerItems.update (1/60) [skartC] [5/6] [boxC]).karts.map
      (fun k => k.heldItem) = [some Item.missile] := by
    norm_num [ServerItems.update, ServerItems.grantScan, ServerItems.drawItem,
      ServerItems.AVAILABLE_ITEMS, ServerItems.PICKUP_RADIUS, ServerItems.RESPAWN_TIME,
      boxC, skartC] <;> decide
  refine ⟨⟨by norm_num, by norm_num, by norm_num, by norm_num⟩, h1, h2, fun hc => ?_⟩
  rw [hc] at h1
  exact absurd (h1.symm.trans h2) (by decide)

/-! ### Room input-cell helper lemmas -/

namespace Room

theorem lookup_mapSet {β : Type} (k : ℕ) (v : β) (l : List (ℕ × β)) (k' : ℕ) :
    (mapSet k v l).lookup k' = if k' = k then some v else l.lookup k' := by
  induction l with
  | nil =>
    by_cases h : k' = k
    · simp [mapSet, List.lookup, beq_iff_eq.mpr h, h]
    · simp [mapSet, List.lookup, beq_eq_false_iff_ne.mpr h, h]
  | cons e tl ih =>
    obtain ⟨a, b⟩ := e
    by_cases hk : k' = a
    · have hba : (k' == a) = true := beq_iff_eq.mpr hk
      by_cases he : a = k
      · subst he
        simp [mapSet, List.lookup, hba, hk]
      · have hkk : ¬ k' = k := by
          rw [hk]
          exact he
        simp [mapSet, List.lookup, he, hba, hkk]
    · have hba : (k' == a) = false := beq_eq_false_iff_ne.mpr hk
      by_cases he : a = k
      · subst he
        simp [mapSet, List.lookup, hba, hk]
      · simp [mapSet, List.lookup, he, hba, ih]

theorem mapSet_self {β : Type} (k : ℕ) (v : β) (l : List (ℕ × β))
    (h : l.lookup k = some v) : mapSet k v l = l := by
  induction l with
  | nil => simp [List.lookup] at h
  | cons e tl ih =>
    obtain ⟨a, b⟩ := e
    by_cases he : a = k
    · subst he
      simp only [List.lookup, beq_self_eq_true] at h
      have hb : b = v := Option.some.inj h
      simp [mapSet, hb]
    · have hka : ¬ k = a := fun hc => he hc.symm
      have hba : (k == a) = false := beq_eq_false_iff_ne.mpr hka
      simp only [List.lookup, hba] at h
      simp [mapSet, he, ih h]

theorem handleInput_bots (s : RoomSim) (pid seq : ℕ) (i : Input) :
    (handleInput s pid seq i).bots = s.bots := rfl

theorem deliverAll_bots (L : List (ℕ × ℕ × Input)) :
    ∀ s : RoomSim, (deliverAll s L).bots = s.bots := by
  induction L with
  | nil => intro s; rfl
  | cons d tl ih =>
    intro s
    exact ih (handleInput s d.1 d.2.1 d.2.2)

theorem deliverAll_lookup (pid : ℕ) :
    ∀ (L : List (ℕ × ℕ × Input)) (s : RoomSim),
      ((deliverAll s L).playerInputs.lookup pid =
        (match lastDelivery pid L with
         | some x => some ⟨x.1, x.2⟩
         | none => s.playerInputs.lookup pid)) ∧
      ((deliverAll s L).playerLastSeq.lookup pid =
        (match lastDelivery pid L with
         | some x => some x.1
         | none => s.playerLastSeq.lookup pid)) := by
  intro L
  induction L with
  | nil =>
    intro s
    exact ⟨rfl, rfl⟩
  | cons d tl ih =>
    intro s
    have hstep : deliverAll s (d :: tl) = deliverAll (handleInput s d.1 d.2.1 d.2.2) tl := rfl
    rw [hstep]
    obtain ⟨h1, h2⟩ := ih (handleInput s d.1 d.2.1 d.2.2)
    rcases hld : lastDelivery pid tl with _ | x
    · have hcons : lastDelivery pid (d :: tl) = if d.1 = pid then some d.2 else none := by
        unfold lastDelivery
        rw [hld]
      rw [hld] at h1 h2
      rw [hcons]
      constructor
      · rw [h1]
        show (mapSet d.1 ⟨d.2.1, d.2.2⟩ s.playerInputs).lookup pid = _
        rw [lookup_mapSet]
        by_cases hp : d.1 = pid
        · rw [if_pos hp.symm, if_pos hp]
        · rw [if_neg (fun hc => hp hc.symm), if_neg hp]
      · rw [h2]
        show (mapSet d.1 d.2.1 s.playerLastSeq).lookup pid = _
        rw [lookup_mapSet]
        by_cases hp : d.1 = pid
        · rw [if_pos hp.symm, if_pos hp]
        · rw [if_neg (fun hc => hp hc.symm), if_neg hp]
    · have hcons : lastDelivery pid (d :: tl) = some x := by
        unfold lastDelivery
        rw [hld]
      rw [hld] at h1 h2
      rw [hcons]
      exact ⟨h1, h2⟩

end Room

/-! ### Claim C6 — latest-input cell -/

/-- C6 (amended): the room stores inbound input as a single
last-write-wins cell per kart: after any delivery sequence, exactly one
input is retained per kart — the one of the *most recently delivered*
message for it, together with its sequence number for acknowledgment —
and the tick's physics step consumes exactly that retained input;
re-delivering a kart's most recent message is harmless (the room state is
unchanged).  `handleInput` performs no sequence-number comparison, so
this cell holds the last *arrival*, not the highest sequence number: a
reordered or late-duplicated message does change what is consumed (see
the counterexample refuting the original claim). -/
theorem C6_input_cell_amended (s : Room.RoomSim) (L : List (ℕ × ℕ × Input)) (pid : ℕ)
    (hbot : s.bots.lookup pid = none) :
    ((Room.deliverAll s L).playerInputs.lookup pid =
      (match Room.lastDelivery pid L with
       | some x => some ⟨x.1, x.2⟩
       | none => s.playerInputs.lookup pid)) ∧
    ((Room.deliverAll s L).playerLastSeq.lookup pid =
      (match Room.lastDelivery pid L with
       | some x => some x.1
       | none => s.playerLastSeq.lookup pid)) ∧
    (Room.consumedInput (Room.deliverAll s L) pid =
      (match (Room.deliverAll s L).playerInputs.lookup pid with
       | some stored => stored.input
       | none => Room.defaultInput)) ∧
    (∀ q : ℕ, ∀ i : Input, Room.lastDelivery pid L = some (q, i) →
      Room.deliverAll s (L ++ [(pid, q, i)]) = Room.deliverAll s L) := by
  obtain ⟨h1, h2⟩ := Room.deliverAll_lookup pid L s
  refine ⟨h1, h2, ?_, ?_⟩
  · unfold Room.consumedInput
    rw [Room.deliverAll_bots, hbot]
  · intro q i hlast
    have happ : Room.deliverAll s (L ++ [(pid, q, i)]) =
        Room.handleInput (Room.deliverAll s L) pid q i := by
      unfold Room.deliverAll
      rw [List.foldl_append]
      rfl
    rw [happ]
    have hin : (Room.deliverAll s L).playerInputs.lookup pid = some ⟨q, i⟩ := by
      rw [h1, hlast]
    have hseq : (Room.deliverAll s L).playerLastSeq.lookup pid = some q := by
      rw [h2, hlast]
    unfold Room.handleInput
    rw [Room.mapSet_self _ _ _ hin, Room.mapSet_self _ _ _ hseq]

/-- C6 counterexample: two input messages for kart 0 with sequence
numbers 1 and 2 and different payloads.  Delivered in order, the tick
consumes the seq-2 input; delivered reordered, it consumes the seq-1
input, and the retained cell holds seq 1 — not the most recent input.
So an out-of-order delivery does change which input the simulation
consumes, refuting the original claim. -/
theorem C6_input_cell_counterexample :
    Room.consumedInput
        (Room.deliverAll roomSim0 [(0, 1, idleInput), (0, 2, accelInput)]) 0 = accelInput ∧
      Room.consumedInput
        (Room.deliverAll roomSim0 [(0, 2, accelInput), (0, 1, idleInput)]) 0 = idleInput ∧
      idleInput ≠ accelInput ∧
      (Room.deliverAll roomSim0
          [(0, 2, accelInput), (0, 1, idleInput)]).playerInputs.lookup 0 =
        some ⟨1, idleInput⟩ := by
  refine ⟨?_, ?_, ?_, ?_⟩
  · norm_num [Room.consumedInput, Room.deliverAll, Room.handleInput, Room.mapSet,
      roomSim0, race0, List.lookup, Room.defaultInput, idleInput, accelInput]
  · norm_num [Room.consumedInput, Room.deliverAll, Room.handleInput, Room.mapSet,
      roomSim0, race0, List.lookup, Room.defaultInput, idleInput, accelInput]
  · norm_num [idleInput, accelInput]
  · norm_num [Room.deliverAll, Room.handleInput, Room.mapSet, roomSim0, race0,
      List.lookup, idleInput, accelInput]

/-- C6 witness: the amended cell theorem applied to the concrete
countdown room (kart 0 is not a bot) and the in-order delivery list. -/
theorem C6_input_cell_witness :
    (roomSim0.bots.lookup 0 = none) ∧
    (((Room.deliverAll roomSim0 [(0, 1, idleInput), (0, 2, accelInput)]).playerInputs.lookup 0 =
      (match Room.lastDelivery 0 [(0, 1, idleInput), (0, 2, accelInput)] with
       | some x => some ⟨x.1, x.2⟩
       | none => roomSim0.playerInputs.lookup 0)) ∧
    ((Room.deliverAll roomSim0 [(0, 1, idleInput), (0, 2, accelInput)]).playerLastSeq.lookup 0 =
      (match Room.lastDelivery 0 [(0, 1, idleInput), (0, 2, accelInput)] with
       | some x => some x.1
       | none => roomSim0.playerLastSeq.lookup 0)) ∧
    (Room.consumedInput (Room.deliverAll roomSim0 [(0, 1, idleInput), (0, 2, accelInput)]) 0 =
      (match (Room.deliverAll roomSim0
          [(0, 1, idleInput), (0, 2, accelInput)]).playerInputs.lookup 0 with
       | some stored => stored.input
       | none => Room.defaultInput)) ∧
    (∀ q : ℕ, ∀ i : Input,
      Room.lastDelivery 0 [(0, 1, idleInput), (0, 2, accelInput)] = some (q, i) →
      Room.deliverAll roomSim0 ([(0, 1, idleInput), (0, 2, accelInput)] ++ [(0, q, i)]) =
        Room.deliverAll roomSim0 [(0, 1, idleInput), (0, 2, accelInput)])) :=
  ⟨rfl, C6_input_cell_amended roomSim0 [(0, 1, idleInput), (0, 2, accelInput)] 0 rfl⟩

/-! ### Claim C5 — frozen countdown ticks -/

/-- C5 (amended): on every room tick whose race update leaves the
countdown above zero, no kart state is mutated, the bots and the stored
player inputs (including their tap fields) are all left exactly as they
were, only the race countdown and the tick counter advance — and
precisely because the stored inputs are untouched, tap fields are *not*
consumed or discarded during the countdown: the tap-clearing step runs
only inside the non-frozen branch, so a latched tap survives to the first
non-frozen tick (see the counterexample refuting the original claim's
discard clause).  This holds for every simulation body. -/
theorem C5_frozen_tick_amended (sq : ℚ → ℚ) (T : Trig)
    (simBody : Room.RoomSim → Room.RoomSim) (s : Room.RoomSim)
    (hfr : Race.isFrozen (Race.update sq T Room.TICK_DT
      (Room.syncRace { s with tick := s.tick + 1 })) = true) :
    (Room.tickRoom sq T simBody s).karts = s.karts ∧
      (Room.tickRoom sq T simBody s).playerInputs = s.playerInputs ∧
      (Room.tickRoom sq T simBody s).playerLastSeq = s.playerLastSeq ∧
      (Room.tickRoom sq T simBody s).bots = s.bots ∧
      (Room.tickRoom sq T simBody s).race =
        Race.update sq T Room.TICK_DT (Room.syncRace { s with tick := s.tick + 1 }) ∧
      (Room.tickRoom sq T simBody s).tick = s.tick + 1 := by
  unfold Room.tickRoom
  (try dsimp only)
  rw [if_pos hfr]
  exact ⟨rfl, rfl, rfl, rfl, rfl, rfl⟩

/-- C5 counterexample: a countdown-phase room whose stored input for
player 0 has a latched hop tap.  After the frozen tick the stored input
still has the tap set and the input the next physics step would consume
still fires the tap — the tick did not consume or discard it, refuting
the claim's discard clause. -/
theorem C5_frozen_tick_counterexample :
    Race.isFrozen (Room.tickRoom (fun q => q) zeroTrig id tapStored).race = true ∧
      (Room.tickRoom (fun q => q) zeroTrig id tapStored).playerInputs.lookup 0 =
        some ⟨7, tapInput⟩ ∧
      tapInput.hopZTap = true ∧
      (Room.consumedInput (Room.tickRoom (fun q => q) zeroTrig id tapStored) 0).hopZTap =
        true := by
  refine ⟨?_, ?_, rfl, ?_⟩
  · norm_num [Room.tickRoom, Room.syncRace, Race.update, Race.countdownStep, Race.isFrozen,
      Room.TICK_DT, tapStored, roomSim0, race0]
  · norm_num [Room.tickRoom, Room.syncRace, Race.update, Race.countdownStep, Race.isFrozen,
      Room.TICK_DT, tapStored, roomSim0, race0, List.lookup]
  · norm_num [Room.tickRoom, Room.consumedInput, Room.syncRace, Race.update,
      Race.countdownStep, Race.isFrozen, Room.TICK_DT, tapStored, roomSim0, race0,
      List.lookup, tapInput]

/-- C5 witness: the frozen-tick theorem applied to the concrete countdown
room, whose race update leaves the countdown at 3. -/
theorem C5_frozen_tick_witness :
    (Race.isFrozen (Race.update (fun q => q) zeroTrig Room.TICK_DT
      (Room.syncRace { tapStored with tick := tapStored.tick + 1 })) = true) ∧
    ((Room.tickRoom (fun q => q) zeroTrig id tapStored).karts = tapStored.karts ∧
      (Room.tickRoom (fun q => q) zeroTrig id tapStored).playerInputs =
        tapStored.playerInputs ∧
      (Room.tickRoom (fun q => q) zeroTrig id tapStored).playerLastSeq =
        tapStored.playerLastSeq ∧
      (Room.tickRoom (fun q => q) zeroTrig id tapStored).bots = tapStored.bots ∧
      (Room.tickRoom (fun q => q) zeroTrig id tapStored).race =
        Race.update (fun q => q) zeroTrig Room.TICK_DT
          (Room.syncRace { tapStored with tick := tapStored.tick + 1 }) ∧
      (Room.tickRoom (fun q => q) zeroTrig id tapStored).tick = tapStored.tick + 1) :=
  ⟨by norm_num [Room.syncRace, Race.update, Race.countdownStep, Race.isFrozen,
      Room.TICK_DT, tapStored, roomSim0, race0],
    C5_frozen_tick_amended (fun q => q) zeroTrig id tapStored
      (by norm_num [Room.syncRace, Race.update, Race.countdownStep, Race.isFrozen,
        Room.TICK_DT, tapStored, roomSim0, race0])⟩

/-! ### Claim C9 — empty-room resource release -/

/-- C9: the code keeps an empty *running* room alive.  In the concrete
run a client connects, creates a room, readies up (starting the game and
its tick interval), and then disconnects; afterwards the room — now with
zero players — is still in the registry with `running` set and a live
tick interval, and no code path ever calls `GameRoom.stop`.  This
evaluates the model at the failing input of the code-bug report: the
spec's cancellation requirement ("a room becoming empty must release all
per-room timers") is violated for rooms in the `Running` phase, which are
also unjoinable, so the interval leaks forever. -/
theorem C9_empty_running_room_leak :
    leakRun.rooms.lookup 1 =
        some { name := 5, mapId := 9, players := [], running := true, tickRunning := true } ∧
      leakRun.clients = [] := by
  constructor
  · rfl
  · rfl

/-! ### Claim C8 — rank ordering and permutation invariance -/

/-- C8 (amended): the per-tick rank computation sorts by the comparator,
which implements exactly the lexicographic order "finished first, lap
descending, total checkpoints descending, distance-to-next-checkpoint
ascending"; and provided no two racers tie on that full key, computing
ranks on any permutation of the racers list assigns every racer the same
rank.  (With an exact tie, the stable sort keeps array order, so
reordering tied racers swaps their ranks — see the counterexample; the
original unconditional claim is false.) -/
theorem C8_ranking_amended (sq : ℚ → ℚ) (cps : List Race.Checkpoint)
    (racers racers2 : List Race.Racer) (hperm : racers.Perm racers2)
    (hnd : (racers.map (Race.rKey sq cps)).Nodup) :
    List.Sorted (fun a b => Race.cmpRacers sq cps a b ≤ 0)
        (Race.sortRacers sq cps racers) ∧
      (∀ a b : Race.Racer, Race.cmpRacers sq cps a b ≤ 0 ↔
        Race.keyLE (Race.rKey sq cps a) (Race.rKey sq cps b)) ∧
      (∀ id, Race.rankOf sq cps racers id = Race.rankOf sq cps racers2 id) := by
  refine ⟨Race.sortRacers_sorted sq cps racers, fun a b => Race.cmp_le_iff sq cps a b, ?_⟩
  have hanti : ∀ a b : Race.Racer, Race.cmpRacers sq cps a b ≤ 0 →
      Race.cmpRacers sq cps b a ≤ 0 → Race.rKey sq cps a = Race.rKey sq cps b :=
    fun a b h1 h2 => Race.keyLE_antisymm _ _
      ((Race.cmp_le_iff sq cps a b).mp h1) ((Race.cmp_le_iff sq cps b a).mp h2)
  have hsp : (Race.sortRacers sq cps racers).Perm (Race.sortRacers sq cps racers2) :=
    (List.perm_insertionSort _ racers).trans
      (hperm.trans (List.perm_insertionSort _ racers2).symm)
  have hnd' : ((Race.sortRacers sq cps racers).map (Race.rKey sq cps)).Nodup :=
    (((List.perm_insertionSort _ racers).map (Race.rKey sq cps)).nodup_iff).mpr hnd
  have heq := Race.eq_of_perm_sorted_keys (Race.rKey sq cps) _ hanti _ _ hsp
    (Race.sortRacers_sorted sq cps racers) (Race.sortRacers_sorted sq cps racers2) hnd'
  intro id
  unfold Race.rankOf
  rw [heq]

/-- C8 counterexample: two racers with identical progress and identical
kart positions (an exact comparator tie).  Swapping their order in the
racers array changes the rank assigned to racer 0 from 1 to 2, so ranks
do depend on array order — the unconditional claim is false. -/
theorem C8_ranking_counterexample :
    [tieRacerB, tieRacerA].Perm [tieRacerA, tieRacerB] ∧
      Race.rankOf (fun q => q) cpsFour [tieRacerA, tieRacerB] 0 = 1 ∧
      Race.rankOf (fun q => q) cpsFour [tieRacerB, tieRacerA] 0 = 2 := by
  refine ⟨List.Perm.swap _ _ _, ?_, ?_⟩
  · norm_num [Race.rankOf, Race.sortRacers, Race.cmpRacers, List.insertionSort,
      List.orderedInsert, tieRacerA, tieRacerB, cpsFour, List.findIdx_cons]
  · norm_num [Race.rankOf, Race.sortRacers, Race.cmpRacers, List.insertionSort,
      List.orderedInsert, tieRacerA, tieRacerB, cpsFour, List.findIdx_cons]

/-- C8 witness: the amended theorem applied to two racers with distinct
keys (different lap counts) and the swapped list. -/
theorem C8_ranking_witness :
    ([tieRacerA, fastRacer].Perm [fastRacer, tieRacerA] ∧
      (([tieRacerA, fastRacer].map (Race.rKey (fun q => q) cpsFour)).Nodup)) ∧
    (List.Sorted (fun a b => Race.cmpRacers (fun q => q) cpsFour a b ≤ 0)
        (Race.sortRacers (fun q => q) cpsFour [tieRacerA, fastRacer]) ∧
      (∀ a b : Race.Racer, Race.cmpRacers (fun q => q) cpsFour a b ≤ 0 ↔
        Race.keyLE (Race.rKey (fun q => q) cpsFour a) (Race.rKey (fun q => q) cpsFour b)) ∧
      (∀ id, Race.rankOf (fun q => q) cpsFour [tieRacerA, fastRacer] id =
        Race.rankOf (fun q => q) cpsFour [fastRacer, tieRacerA] id)) :=
  ⟨⟨List.Perm.swap _ _ _,
    by norm_num [Race.rKey, tieRacerA, fastRacer, cpsFour]⟩,
    C8_ranking_amended (fun q => q) cpsFour [tieRacerA, fastRacer] [fastRacer, tieRacerA]
      (List.Perm.swap _ _ _)
      (by norm_num [Race.rKey, tieRacerA, fastRacer, cpsFour])⟩

end KartSim
